import Mathlib

/-!
Shallow embedding of the monster core of this repository (monster lifecycle,
movement, combat and placement), together with theorems checking the
natural-language specification against it.  Every definition follows the
corresponding source function; world queries that live outside the monster
module (tile solidity, dungeon bounds, player stats, ...) are passed in as
explicit parameters.
-/

namespace Spec2Proof

/-- A world tile coordinate pair (`Point` in the source). -/
structure Point where
  x : Int
  y : Int
  deriving DecidableEq, Repr

/-- The eight compass directions of the isometric grid, in the numeric order
of the source enum (`South = 0, SouthWest, West, NorthWest, North, NorthEast,
East, SouthEast`).  Modelled from the engine's direction header, which is not
part of the monster module. -/
inductive Direction where
  | South
  | SouthWest
  | West
  | NorthWest
  | North
  | NorthEast
  | East
  | SouthEast
  deriving DecidableEq, Repr

/-- Tile displacement of each direction.  In this coordinate encoding
`South = (1,1)`, so the four cardinal names are the tile-diagonal steps and
the four intercardinal names are the axis-aligned steps.  Modelled from the
engine's direction header. -/
def Direction.offset : Direction → Point
  | .South => ⟨1, 1⟩
  | .SouthWest => ⟨0, 1⟩
  | .West => ⟨-1, 1⟩
  | .NorthWest => ⟨-1, 0⟩
  | .North => ⟨-1, -1⟩
  | .NorthEast => ⟨0, -1⟩
  | .East => ⟨1, -1⟩
  | .SouthEast => ⟨1, 0⟩

/-- `point + direction` of the source. -/
def Point.step (p : Point) (d : Direction) : Point :=
  ⟨p.x + d.offset.x, p.y + d.offset.y⟩

/-- `static_cast<Direction>(n)` for `n` in `[0,8)`, following the enum order. -/
def dirFromInt (n : Int) : Direction :=
  if n = 0 then .South
  else if n = 1 then .SouthWest
  else if n = 2 then .West
  else if n = 3 then .NorthWest
  else if n = 4 then .North
  else if n = 5 then .NorthEast
  else if n = 6 then .East
  else .SouthEast

/-- `Point::WalkingDistance`: Chebyshev distance on tiles.  Modelled from the
engine's point header, which is not part of the monster module. -/
def walkingDistance (a b : Point) : Int :=
  max (a.x - b.x).natAbs (a.y - b.y).natAbs

/-- The engine RNG, modelled as a stream of raw draws.
`GenerateRnd(v)` returns `0` without consuming a draw when `v <= 0`, and
otherwise consumes one draw and reduces it into `[0, v)`. -/
def generateRnd (v : Int) (r : List Int) : Int × List Int :=
  if v ≤ 0 then (0, r)
  else (((r.headD 0).natAbs : Int) % v, r.tail)

/-- Arithmetic right shift by six (`hp >> 6` of the source): floor division
by 64, also for negative fixed-point values. -/
def shr6 (x : Int) : Int := Int.fdiv x 64

/-! ## Type catalog (`AddMonsterType`, claim C3) -/

/-- Per-level distinct-archetype cap (`MaxLvlMTypes`).  The header holding the
constant is not part of the monster module; the exact value is immaterial to
the theorems below. -/
def maxLvlMTypes : Nat := 24

/-- The level's Type Catalog: `LevelMonsterTypeCount` plus the backing store
of `LevelMonsterTypes` (archetype id and accumulated place flags per slot)
and the sprite-memory budget `monstimgtot`.  The store is modelled as total
functions so that the source's unchecked writes keep a meaning at any index. -/
structure TypeCatalog where
  count : Nat
  types : Nat → Int
  placeFlags : Nat → Int
  imgtot : Int

/-- `GetMonsterTypeIndex`: first catalog slot holding `t`, or `count`. -/
def getMonsterTypeIndex (cat : TypeCatalog) (t : Int) : Nat :=
  match (List.range cat.count).find? (fun i => cat.types i = t) with
  | some i => i
  | none => cat.count

/-- `AddMonsterType`: registers `t` if absent (incrementing the count,
storing the archetype and accumulating its sprite budget `mImage t`), then
ors the placement flag into the slot and returns the slot index.  The source
performs no cap check of its own. -/
def addMonsterType (mImage : Int → Int) (cat : TypeCatalog) (t : Int) (pf : Int) :
    Nat × TypeCatalog :=
  let typeIndex := getMonsterTypeIndex cat t
  let cat1 :=
    if typeIndex = cat.count then
      { cat with
        count := cat.count + 1
        types := fun i => if i = typeIndex then t else cat.types i
        imgtot := cat.imgtot + mImage t }
    else cat
  (typeIndex,
    { cat1 with
      placeFlags := fun i =>
        if i = typeIndex then Int.lor (cat1.placeFlags i) pf else cat1.placeFlags i })

/-! ## Move legality (`IsRelativeMoveOK`, `DirOK`; claims C6, C7) -/

/-- Numeric value of a direction in the source enum order. -/
def dirToInt : Direction → Int
  | .South => 0
  | .SouthWest => 1
  | .West => 2
  | .NorthWest => 3
  | .North => 4
  | .NorthEast => 5
  | .East => 6
  | .SouthEast => 7

/-- The world queries consulted by the move-legality checks.  They live
outside the monster module (dungeon layout, occupancy of other subsystems)
and are passed as predicates: `isTileAvailable` stands for the source's
`IsTileAvailable(monster, p)` (tile free of players/monsters, walkable, and
safe from feared missiles for this monster). -/
structure MoveEnv where
  inDungeonBounds : Point → Bool
  isTileAvailable : Point → Bool
  isTileSolid : Point → Bool

/-- `IsRelativeMoveOK`: the destination must be in bounds and available, and
a tile-diagonal step must additionally pass the corner guard.  The source
checks only the south-side flanking tile for `East` and `West` steps, and
both flanking tiles for `North` and `South` steps. -/
def isRelativeMoveOK (env : MoveEnv) (position : Point) (mdir : Direction) : Bool :=
  let futurePosition := position.step mdir
  if !env.inDungeonBounds futurePosition || !env.isTileAvailable futurePosition then
    false
  else if mdir = .East then
    !env.isTileSolid (position.step .SouthEast)
  else if mdir = .West then
    !env.isTileSolid (position.step .SouthWest)
  else if mdir = .North then
    !(env.isTileSolid (position.step .NorthEast) || env.isTileSolid (position.step .NorthWest))
  else if mdir = .South then
    !(env.isTileSolid (position.step .SouthWest) || env.isTileSolid (position.step .SouthEast))
  else
    true

/-- Leader-relation tag of a monster. -/
inductive LeaderRelation where
  | None
  | Leashed
  | Separated
  deriving DecidableEq, Repr

/-- The monster fields read by `DirOK`. -/
structure MonsterLite where
  tile : Point
  future : Point
  leaderRelation : LeaderRelation
  leader : Nat
  uniqType : Nat
  packSize : Int

/-- The 7x7 minion count of `DirOK`: leashed followers of `monsterId` found
in the occupancy grid around the destination tile. -/
def countLeashedMinions (env : MoveEnv) (monsters : Nat → MonsterLite)
    (dMonster : Point → Int) (monsterId : Nat) (c : Point) : Int :=
  (List.range 7).foldl (fun acc dx =>
    (List.range 7).foldl (fun acc2 dy =>
      let p : Point := ⟨c.x - 3 + dx, c.y - 3 + dy⟩
      if !env.inDungeonBounds p then acc2
      else
        let mi := dMonster p
        if mi ≤ 0 then acc2
        else
          let minion := monsters (mi - 1).toNat
          if minion.leaderRelation = .Leashed ∧ minion.leader = monsterId then acc2 + 1
          else acc2) acc) 0

/-- `DirOK`: the relative move must pass `IsRelativeMoveOK`; a leashed
follower must additionally land within walking distance `< 4` of its
leader's future tile; a leader of a leashed unique pack must keep exactly
`packSize` leashed followers within the 7x7 neighbourhood.
`uniquePackLeashed u` stands for
`UniqueMonstersData[u].monsterPack == UniqueMonsterPack::Leashed`. -/
def dirOK (env : MoveEnv) (monsters : Nat → MonsterLite) (dMonster : Point → Int)
    (uniquePackLeashed : Nat → Bool) (monsterId : Nat) (mdir : Direction) : Bool :=
  let monster := monsters monsterId
  let position := monster.tile
  let futurePosition := position.step mdir
  if !isRelativeMoveOK env position mdir then false
  else if monster.leaderRelation = .Leashed then
    walkingDistance futurePosition (monsters monster.leader).future < 4
  else if monster.uniqType = 0 || !uniquePackLeashed (monster.uniqType - 1) then true
  else
    countLeashedMinions env monsters dMonster monsterId futurePosition = monster.packSize

/-! ## Walking mode transitions (claim C5) -/

/-- The mode states of the monster state machine, in the source enum order. -/
inductive MonsterMode where
  | Stand
  | MoveNorthwards
  | MoveSouthwards
  | MoveSideways
  | MeleeAttack
  | HitRecovery
  | Death
  | SpecialMeleeAttack
  | FadeIn
  | FadeOut
  | RangedAttack
  | SpecialStand
  | SpecialRangedAttack
  | Delay
  | Charge
  | Petrified
  | Heal
  | Talk
  deriving DecidableEq, Repr

/-- Numeric value of a mode in the source enum order. -/
def modeToInt : MonsterMode → Int
  | .Stand => 0
  | .MoveNorthwards => 1
  | .MoveSouthwards => 2
  | .MoveSideways => 3
  | .MeleeAttack => 4
  | .HitRecovery => 5
  | .Death => 6
  | .SpecialMeleeAttack => 7
  | .FadeIn => 8
  | .FadeOut => 9
  | .RangedAttack => 10
  | .SpecialStand => 11
  | .SpecialRangedAttack => 12
  | .Delay => 13
  | .Charge => 14
  | .Petrified => 15
  | .Heal => 16
  | .Talk => 17

/-- Animation bookkeeping read by the walk modes.  The animation data itself
is an external asset; only the frame counters gating mode completion are
modelled. -/
structure AnimInfo where
  currentFrame : Int
  numberOfFrames : Int
  tickCounterOfCurrentFrame : Int

/-- The monster fields touched by the walking transitions. -/
structure WalkMonster where
  id : Nat
  mode : MonsterMode
  tile : Point
  old : Point
  future : Point
  temp : Point
  var1 : Int
  var2 : Int
  var3 : Int
  offX : Int
  offY : Int
  off2X : Int
  off2Y : Int
  velX : Int
  velY : Int
  direction : Direction
  anim : AnimInfo

/-- One monster plus the shared occupancy grid `dMonster`. -/
structure WalkState where
  monster : WalkMonster
  grid : Point → Int

/-- Point update of the occupancy grid. -/
def gridSet (g : Point → Int) (p : Point) (v : Int) : Point → Int :=
  fun q => if q = p then v else g q

/-- `WalkNorthwards`: claims the destination with the negative in-transit
marker and enters `MoveNorthwards`; the monster's tile is not moved yet.
`NewMonsterAnim` is modelled by its facing-direction effect; the sprite
switch is external. -/
def walkNorthwards (s : WalkState) (xvel yvel xadd yadd : Int) (endDir : Direction) :
    WalkState :=
  let m := s.monster
  let fx := xadd + m.tile.x
  let fy := yadd + m.tile.y
  { grid := gridSet s.grid ⟨fx, fy⟩ (-(m.id + 1 : Int))
    monster := { m with
      mode := .MoveNorthwards
      old := m.tile
      future := ⟨fx, fy⟩
      velX := xvel, velY := yvel
      var1 := xadd, var2 := yadd, var3 := dirToInt endDir
      direction := endDir
      off2X := 0, off2Y := 0 } }

/-- `WalkSouthwards`: marks the vacated tile with the negative in-transit
marker, moves the monster's tile to the destination at once and claims the
destination with the positive marker. -/
def walkSouthwards (s : WalkState) (xvel yvel xoff yoff xadd yadd : Int)
    (endDir : Direction) : WalkState :=
  let m := s.monster
  let fx := xadd + m.tile.x
  let fy := yadd + m.tile.y
  let grid1 := gridSet s.grid m.tile (-(m.id + 1 : Int))
  { grid := gridSet grid1 ⟨fx, fy⟩ (m.id + 1 : Int)
    monster := { m with
      var1 := m.tile.x, var2 := m.tile.y, var3 := dirToInt endDir
      old := m.tile
      tile := ⟨fx, fy⟩
      future := ⟨fx, fy⟩
      offX := xoff, offY := yoff
      mode := .MoveSouthwards
      velX := xvel, velY := yvel
      direction := endDir
      off2X := 16 * xoff, off2Y := 16 * yoff } }

/-- `WalkSideways`: marks the vacated tile with the negative in-transit
marker and the destination with the positive marker; the monster's tile
stays on the source tile until completion.  The light tracking performed on
`mapx`/`mapy` is external and only `position.temp` is recorded. -/
def walkSideways (s : WalkState) (xvel yvel xoff yoff xadd yadd mapx mapy : Int)
    (endDir : Direction) : WalkState :=
  let m := s.monster
  let fx := xadd + m.tile.x
  let fy := yadd + m.tile.y
  let x := mapx + m.tile.x
  let y := mapy + m.tile.y
  let grid1 := gridSet s.grid m.tile (-(m.id + 1 : Int))
  { grid := gridSet grid1 ⟨fx, fy⟩ (m.id + 1 : Int)
    monster := { m with
      temp := ⟨x, y⟩
      old := m.tile
      future := ⟨fx, fy⟩
      offX := xoff, offY := yoff
      mode := .MoveSideways
      velX := xvel, velY := yvel
      var1 := fx, var2 := fy, var3 := dirToInt endDir
      direction := endDir
      off2X := 16 * xoff, off2Y := 16 * yoff } }

/-- `M_StartStand` restricted to the fields modelled here (`ClearMVars`,
re-anim, mode and position resets; the `UpdateEnemy` retargeting touches
only targeting fields not represented in `WalkMonster`). -/
def mStartStand (s : WalkState) (md : Direction) : WalkState :=
  let m := s.monster
  let m1 := { m with
    var1 := 0, var2 := 0, var3 := 0
    temp := (⟨0, 0⟩ : Point)
    off2X := 0, off2Y := 0 }
  { s with monster := { m1 with
      direction := md
      var1 := modeToInt m.mode
      var2 := 0
      mode := .Stand
      offX := 0, offY := 0
      future := m1.tile
      old := m1.tile } }

/-- `MonsterWalk`: on the last animation frame the transition completes
(grid hand-over specific to the variant, then `M_StartStand`); otherwise the
sub-tile offset advances by the velocity on frame-tick boundaries.  Returns
the "finished" flag.  Sound and lighting calls are external. -/
def monsterWalk (s : WalkState) (variant : MonsterMode) : WalkState × Bool :=
  let m := s.monster
  let isAnimationEnd := m.anim.currentFrame = m.anim.numberOfFrames - 1
  if isAnimationEnd then
    let s1 :=
      match variant with
      | .MoveNorthwards =>
          let grid1 := gridSet s.grid m.tile 0
          let newTile : Point := ⟨m.tile.x + m.var1, m.tile.y + m.var2⟩
          { grid := gridSet grid1 newTile (m.id + 1 : Int)
            monster := { m with tile := newTile } }
      | .MoveSouthwards =>
          { s with grid := gridSet s.grid ⟨m.var1, m.var2⟩ 0 }
      | .MoveSideways =>
          let grid1 := gridSet s.grid m.tile 0
          let newTile : Point := ⟨m.var1, m.var2⟩
          { grid := gridSet grid1 newTile (m.id + 1 : Int)
            monster := { m with tile := newTile } }
      | _ => s
    (mStartStand s1 s1.monster.direction, true)
  else
    let s1 :=
      if m.anim.tickCounterOfCurrentFrame = 0 then
        let off2X := m.off2X + m.velX
        let off2Y := m.off2Y + m.velY
        { s with monster := { m with
            off2X := off2X, off2Y := off2Y
            offX := Int.fdiv off2X 16, offY := Int.fdiv off2Y 16 } }
      else s
    (s1, false)

/-! ## Combat and the death pipeline (claims C1, C2, C4, C10)

Monster archetype ids (`_monster_id`) live in an external data header; the
constants below are symbolic stand-ins — all the source comparisons need is
which constant the monster's id equals, so only their pairwise distinctness
matters. -/

def mtYZombie : Int := 3
def mtNScav : Int := 4
def mtBScav : Int := 5
def mtWScav : Int := 6
def mtYScav : Int := 7
def mtSneak : Int := 24
def mtStalker : Int := 25
def mtUnseen : Int := 26
def mtIllweav : Int := 27
def mtBlink : Int := 28
def mtNAcid : Int := 60
def mtRAcid : Int := 61
def mtBAcid : Int := 62
def mtXAcid : Int := 63
def mtSpidlord : Int := 64
def mtSKing : Int := 68
def mtDiablo : Int := 101
def mtGravedig : Int := 110
def mtGolem : Int := 139

/-- `MAX_PLRS`. -/
def maxPlrs : Int := 4

/-- `MGOAL_NONE` and `MGOAL_NORMAL` of the goal enum. -/
def mgoalNone : Int := 0

def mgoalNormal : Int := 1

/-- Player activity modes consulted by the attack code. -/
inductive PlayerMode where
  | Stand
  | Attack
  | GotHit
  | Other
  deriving DecidableEq, Repr

/-- One-way calls into collaborating subsystems (network, sound, loot,
player actions, quests).  The core only emits them; they are recorded most
recent first. -/
inductive Event where
  | attackMonsterInstead (mid : Int)
  | startPlrBlock (dir : Direction)
  | netSetReflect
  | deltaMonsterHp
  | netMonDmg (dam : Int)
  | playEffect (k : Int)
  | applyPlrDamage (dam : Int)
  | startPlrHit (dam : Int) (forceHit : Bool)
  | deltaKillMonster
  | netMonstDeath
  | netKillGolem
  | addPlrMonstExper (lvl : Int) (xp : Int) (whoHit : Int)
  | setRndSeed (s : Int)
  | spawnLoot (sendmsg : Bool)
  | diabloDeath
  | checkQuestKill (sendmsg : Bool)
  | fallenFear (p : Point)
  | addMissileAcid
  | fixPlayerLocation
  | fixPlrWalkTags
  | setPlayerOld
  deriving DecidableEq, Repr

/-- The monster fields read or written on the combat and death paths. -/
structure Monster where
  id : Nat
  typ : Int
  mode : MonsterMode
  goal : Int
  goalVar1 : Int
  goalVar2 : Int
  goalVar3 : Int
  hitPoints : Int
  maxHitPoints : Int
  level : Int
  exp : Int
  whoHit : Int
  intelligence : Int
  tile : Point
  old : Point
  future : Point
  temp : Point
  offX : Int
  offY : Int
  off2X : Int
  off2Y : Int
  var1 : Int
  var2 : Int
  var3 : Int
  direction : Direction
  enemy : Int
  enemyPosition : Point
  targetsMonster : Bool
  noLifesteal : Bool
  knockback : Bool
  classDemon : Bool
  classUndead : Bool
  rndItemSeed : Int

/-- The fields of the defending player (`Players[pnum]`) read or written on
these paths.  `armor` and `blockChance` are the results of the external
`GetArmor()`/`GetBlockChance()` calls. -/
structure Player where
  hitPoints : Int
  maxHP : Int
  hpBase : Int
  maxHPBase : Int
  invincible : Bool
  etherealize : Bool
  level : Int
  armor : Int
  blockChance : Int
  blockFlag : Bool
  pmode : PlayerMode
  acAgainstDemons : Bool
  acAgainstUndead : Bool
  getHit : Int
  reflections : Int
  thorns : Bool
  tile : Point
  future : Point

/-- The combat world: the acting monster, the defending player, the shared
globals, and the external collaborators passed as functions
(`applyDamage` is the player subsystem's `ApplyPlrDamage` effect on the
player's hit points; `getDir` is the engine's `GetDirection`). -/
structure World where
  monster : Monster
  player : Player
  killCounts : Int → Int
  grid : Point → Int
  dPlayer : Point → Int
  rng : List Int
  events : List Event
  currlevel : Int
  myPlayerId : Int
  multiplayer : Bool
  hellfire : Bool
  inBounds : Point → Bool
  tileAvail : Point → Bool
  posOkPlayer : Point → Bool
  applyDamage : Int → Int → Int
  getDir : Point → Point → Direction

/-- Record one collaborator call. -/
def addEvent (w : World) (e : Event) : World :=
  { w with events := e :: w.events }

/-- `M_ClearSquares`: zero every cell of the 3x3 square around
`position.old` whose occupancy entry refers to this monster (the source
resolves the cell through `MonsterAtPosition`, which takes the absolute
value of the marker). -/
def mClearSquares (inBounds : Point → Bool) (grid : Point → Int) (old : Point) (id : Nat) :
    Point → Int :=
  fun q =>
    if (q.x - old.x).natAbs ≤ 1 ∧ (q.y - old.y).natAbs ≤ 1 ∧ inBounds q ∧
        grid q ≠ 0 ∧ (grid q).natAbs = id + 1 then 0
    else grid q

/-- `MonsterDeath(monster, pnum, md, sendmsg)`: experience award (skipped
for golems), kill-counter bump, zeroing of hit points, deterministic loot
seed and loot spawn, death animation entry unless petrified, position and
occupancy cleanup, and quest/fear notifications.  `DiabloDeath`'s ending
sequence (camera/timer scratch values computed with floating point) is
recorded as an event only. -/
def monsterDeath (w : World) (pnum : Int) (md : Direction) (sendmsg : Bool) : World :=
  let m := w.monster
  let m1 := if pnum < maxPlrs ∧ 0 ≤ pnum then
      { m with whoHit := Int.lor m.whoHit (2 ^ pnum.toNat) }
    else m
  let w1 := { w with monster := m1 }
  let w2 :=
    if pnum < maxPlrs ∧ m1.typ ≠ mtGolem then
      addEvent w1 (.addPlrMonstExper m1.level m1.exp m1.whoHit)
    else w1
  let w3 := { w2 with
    killCounts := fun t => if t = m1.typ then w2.killCounts t + 1 else w2.killCounts t }
  let m2 := { m1 with hitPoints := 0 }
  let w4 := addEvent { w3 with monster := m2 } (.setRndSeed m2.rndItemSeed)
  let w5 := addEvent w4 (.spawnLoot sendmsg)
  let w6 := if m2.typ = mtDiablo then addEvent w5 .diabloDeath else addEvent w5 (.playEffect 2)
  let m3 :=
    if m2.mode ≠ .Petrified then
      { m2 with mode := .Death, direction := if m2.typ = mtGolem then .South else md }
    else m2
  let m4 := { m3 with
    goal := mgoalNone, var1 := 0, offX := 0, offY := 0
    tile := m3.old, future := m3.old }
  let grid1 := mClearSquares w.inBounds w6.grid m4.old m4.id
  let grid2 := gridSet grid1 m4.tile (m4.id + 1 : Int)
  let w7 := { w6 with monster := m4, grid := grid2 }
  let w8 := addEvent (addEvent w7 (.checkQuestKill sendmsg)) (.fallenFear m4.tile)
  if m4.typ = mtNAcid ∨ m4.typ = mtRAcid ∨ m4.typ = mtBAcid ∨ m4.typ = mtXAcid ∨
      m4.typ = mtSpidlord then
    addEvent w8 .addMissileAcid
  else w8

/-- `StartMonsterDeath`. -/
def startMonsterDeath (w : World) (pnum : Int) (sendmsg : Bool) : World :=
  let md := if pnum ≥ 0 then w.getDir w.monster.tile w.player.tile else w.monster.direction
  monsterDeath w pnum md sendmsg

/-- `M_StartKill`: the local player broadcasts the kill, then the death
pipeline runs unconditionally. -/
def mStartKill (w : World) (pnum : Int) : World :=
  let w1 :=
    if pnum = w.myPlayerId then
      let wa := addEvent w .deltaKillMonster
      if (w.monster.id : Int) ≠ pnum then addEvent wa .netMonstDeath
      else addEvent wa .netKillGolem
    else w
  startMonsterDeath w1 pnum true

/-- `M_SyncStartKill`: a no-op on an already dead monster (zero hit points
or Death mode); otherwise relocates the corpse if the reported cell is free
and runs the death pipeline without re-broadcasting. -/
def mSyncStartKill (w : World) (position : Point) (pnum : Int) : World :=
  let m := w.monster
  if m.hitPoints = 0 ∨ m.mode = .Death then w
  else
    let w1 :=
      if w.grid position = 0 then
        let grid1 := mClearSquares w.inBounds w.grid m.old m.id
        { w with grid := grid1, monster := { m with tile := position, old := position } }
      else w
    startMonsterDeath w1 pnum false

/-- `GetTeleportTile`: two draws pick a quadrant, then a fixed-order scan of
a small neighbourhood of the enemy position yields the first available tile
sharing neither coordinate with the current tile. -/
def getTeleportTile (w : World) : Option Point × List Int :=
  let m := w.monster
  let (r1, rng1) := generateRnd 2 w.rng
  let (r2, rng2) := generateRnd 2 rng1
  let rx := 2 * r1 - 1
  let ry := 2 * r2 - 1
  let candidates : List Point :=
    [⟨m.enemyPosition.x - rx, m.enemyPosition.y - ry⟩,
     ⟨m.enemyPosition.x - rx, m.enemyPosition.y⟩,
     ⟨m.enemyPosition.x, m.enemyPosition.y - ry⟩,
     ⟨m.enemyPosition.x + rx, m.enemyPosition.y - ry⟩,
     ⟨m.enemyPosition.x + rx, m.enemyPosition.y⟩]
  (candidates.find? (fun p =>
      w.inBounds p && p.x ≠ m.tile.x && p.y ≠ m.tile.y && w.tileAvail p), rng2)

/-- `Teleport`: relocate a hit Blink-type monster (no effect when
petrified; light tracking is external). -/
def teleport (w : World) : World :=
  if w.monster.mode = .Petrified then w
  else
    let (opt, rng2) := getTeleportTile w
    let w1 := { w with rng := rng2 }
    match opt with
    | none => w1
    | some p =>
        let m := w1.monster
        let grid1 := mClearSquares w.inBounds w1.grid m.old m.id
        let grid2 := gridSet grid1 m.tile 0
        let grid3 := gridSet grid2 p (m.id + 1 : Int)
        let m1 := { m with old := p }
        let m2 := { m1 with direction := w.getDir m1.tile m1.enemyPosition }
        { w1 with grid := grid3, monster := m2 }

/-- `StartMonsterGotHit`: stagger animation entry (golems keep their mode),
position snap-back and occupancy cleanup. -/
def startMonsterGotHit (w : World) : World :=
  let m := w.monster
  let m1 := if m.typ ≠ mtGolem then { m with mode := .HitRecovery } else m
  let m2 := { m1 with offX := 0, offY := 0, tile := m1.old, future := m1.old }
  let grid1 := mClearSquares w.inBounds w.grid m2.old m2.id
  let grid2 := gridSet grid1 m2.tile (m2.id + 1 : Int)
  { w with monster := m2, grid := grid2 }

/-- Shared archetype test of the two `M_StartHit` overloads. -/
def isSneakFamily (t : Int) : Bool :=
  t = mtSneak || t = mtStalker || t = mtUnseen || t = mtIllweav

/-- `M_StartHit(monster, dam)`: hit reaction — stagger (with Blink teleport
and scavenger goal reset) when the archetype always staggers or the damage
crosses the level-relative threshold. -/
def mStartHitDam (w : World) (dam : Int) : World :=
  let w0 := addEvent w (.playEffect 1)
  let m := w0.monster
  if isSneakFamily m.typ || shr6 dam ≥ m.level + 3 then
    let w1 :=
      if m.typ = mtBlink then teleport w0
      else if m.typ = mtNScav || m.typ = mtBScav || m.typ = mtWScav || m.typ = mtYScav ||
          m.typ = mtGravedig then
        { w0 with monster := { m with goalVar1 := mgoalNormal, goalVar2 := 0, goalVar3 := 0 } }
      else w0
    if w1.monster.mode ≠ .Petrified then startMonsterGotHit w1 else w1
  else w0

/-- `M_StartHit(monster, pnum, dam)`: credit the hitter, broadcast from the
local player, optionally retarget onto the hitter, then the shared hit
reaction. -/
def mStartHitPlr (w : World) (pnum : Int) (dam : Int) : World :=
  let m := w.monster
  let m1 := { m with whoHit := Int.lor m.whoHit (2 ^ pnum.toNat) }
  let w1 := { w with monster := m1 }
  let w2 :=
    if pnum = w.myPlayerId then addEvent (addEvent w1 .deltaMonsterHp) (.netMonDmg dam)
    else w1
  let m2 := w2.monster
  let w3 :=
    if isSneakFamily m2.typ || shr6 dam ≥ m2.level + 3 then
      let m3 := { m2 with
        enemy := pnum
        enemyPosition := w2.player.future
        targetsMonster := false }
      { w2 with monster := { m3 with direction := w2.getDir m3.tile m3.enemyPosition } }
    else w2
  mStartHitDam w3 dam

/-- `CheckReflect`: consume a reflect charge, bounce 20-30% of the incoming
damage back at the monster, and route a reflected kill or hit.  The dead
store into `dam` is kept from the source. -/
def checkReflect (w : World) (pnum : Int) (dam : Int) : World :=
  let p1 := { w.player with reflections := w.player.reflections - 1 }
  let w1 := { w with player := p1 }
  let w2 := if p1.reflections ≤ 0 then addEvent w1 .netSetReflect else w1
  let (r, rng1) := generateRnd 10 w2.rng
  let mdam := Int.tdiv (dam * (r + 20)) 100
  let m1 := { w2.monster with hitPoints := w2.monster.hitPoints - mdam }
  let w3 := { w2 with rng := rng1, monster := m1 }
  let _deadStore := max (dam - mdam) 0
  if shr6 m1.hitPoints ≤ 0 then mStartKill w3 pnum
  else mStartHitPlr w3 pnum mdam

/-- `M_StartStand` on the combat representation (`UpdateEnemy`'s target
refresh touches only targeting caches and is elided). -/
def mStartStandC (w : World) (md : Direction) : World :=
  let m := w.monster
  let m1 := { m with
    var1 := 0, var2 := 0, var3 := 0
    temp := (⟨0, 0⟩ : Point)
    off2X := 0, off2Y := 0 }
  { w with monster := { m1 with
      direction := md
      var1 := modeToInt m.mode
      var2 := 0
      mode := .Stand
      offX := 0, offY := 0
      future := m1.tile
      old := m1.tile } }

/-- The per-area minimum of the monster-vs-player to-hit threshold. -/
def minHitForLevel (currlevel : Int) : Int :=
  if currlevel = 14 then 20
  else if currlevel = 15 then 25
  else if currlevel = 16 then 30
  else 15

/-- The successful-block branch of `MonsterAttackPlayer`: `StartPlrBlock`,
then, for the local player with a reflect charge, a damage roll bounced
through `CheckReflect`. -/
def monsterAttackPlayerBlocked (w1 : World) (pnum minDam maxDam : Int) : World :=
  let dir := w1.getDir w1.player.tile w1.monster.tile
  let w1e := addEvent w1 (.startPlrBlock dir)
  if pnum = w1e.myPlayerId ∧ w1e.player.reflections > 0 then
    let dR := generateRnd ((maxDam - minDam) * 64 + 1) w1e.rng
    let dam := max (dR.1 + minDam * 64 + w1e.player.getHit * 64) 64
    checkReflect { w1e with rng := dR.2 } pnum dam
  else w1e

/-- The Yellow-Zombie drain of `MonsterAttackPlayer`: permanently lower the
local player's maximum hit points by one whole point, re-clamping current
values. -/
def monsterAttackPlayerDrain (w1 : World) : World :=
  let p := w1.player
  if p.maxHP > 64 then
    if p.maxHPBase > 64 then
      let p1 := { p with maxHP := p.maxHP - 64 }
      let p2 := if p1.hitPoints > p1.maxHP then { p1 with hitPoints := p1.maxHP }
                else p1
      let p3 := { p2 with maxHPBase := p2.maxHPBase - 64 }
      let p4 := if p3.hpBase > p3.maxHPBase then { p3 with hpBase := p3.maxHPBase }
                else p3
      { w1 with player := p4 }
    else w1
  else w1

/-- Landed-hit step 1: reflect and `ApplyPlrDamage` for the local player. -/
def landedReflectApply (w3 : World) (pnum dam : Int) : World :=
  if pnum = w3.myPlayerId then
    let w3a := if w3.player.reflections > 0 then checkReflect w3 pnum dam else w3
    let w3b := addEvent w3a (.applyPlrDamage dam)
    { w3b with player :=
      { w3b.player with hitPoints := w3.applyDamage w3b.player.hitPoints dam } }
  else w3

/-- Landed-hit step 2: thorns recoil, routing a recoil kill or stagger. -/
def landedThorns (w4 : World) (pnum : Int) : World :=
  if w4.player.thorns ∧ w4.monster.mode ≠ .Death then
    let tR := generateRnd 3 w4.rng
    let mdam := (tR.1 + 1) * 64
    let m1 := { w4.monster with hitPoints := w4.monster.hitPoints - mdam }
    let w4a := { w4 with monster := m1, rng := tR.2 }
    if shr6 m1.hitPoints ≤ 0 then mStartKill w4a pnum else mStartHitPlr w4a pnum mdam
  else w4

/-- Landed-hit step 3: the multiplayer Skeleton-King life-steal, adding the
dealt damage to the monster's hit points without any clamp. -/
def landedLifesteal (w5 : World) (dam : Int) : World :=
  if ¬w5.monster.noLifesteal ∧ w5.monster.typ = mtSKing ∧ w5.multiplayer then
    { w5 with monster :=
      { w5.monster with hitPoints := w5.monster.hitPoints + dam } }
  else w5

/-- Landed-hit step 4: the dead-player exits, `StartPlrHit` and knockback.
The `PosOkPlayer` query is read off the state (no step changes it). -/
def landedFinish (w6 : World) (pnum dam : Int) : World :=
  if shr6 w6.player.hitPoints ≤ 0 then
    if w6.hellfire then mStartStandC w6 w6.monster.direction else w6
  else
    let w7 := addEvent w6 (.startPlrHit dam false)
    if w7.monster.knockback then
      let w8 := if w7.player.pmode ≠ .GotHit then addEvent w7 (.startPlrHit 0 true)
                else w7
      let newPosition := w8.player.tile.step w8.monster.direction
      if w6.posOkPlayer newPosition then
        let w9 := { w8 with player := { w8.player with tile := newPosition } }
        let w10 := addEvent (addEvent w9 .fixPlayerLocation) .fixPlrWalkTags
        let w11 := { w10 with dPlayer := gridSet w10.dPlayer newPosition (pnum + 1) }
        addEvent w11 .setPlayerOld
      else w8
    else w7

/-- The landed-hit tail of `MonsterAttackPlayer`, entered with the damage
roll `dam` already made: the four steps above in source order. -/
def monsterAttackPlayerLanded (w3 : World) (pnum dam : Int) : World :=
  landedFinish (landedLifesteal (landedThorns (landedReflectApply w3 pnum dam) pnum) dam)
    pnum dam

/-- `MonsterAttackPlayer(monsterId, pnum, hit, minDam, maxDam)`, the full
monster-vs-player melee resolution.  `w.player` stands for `Players[pnum]`. -/
def monsterAttackPlayer (w : World) (pnum : Int) (hit minDam maxDam : Int) : World :=
  let monster := w.monster
  if monster.targetsMonster then addEvent w (.attackMonsterInstead pnum)
  else
    let player := w.player
    if shr6 player.hitPoints ≤ 0 || player.invincible || player.etherealize then w
    else if walkingDistance monster.tile player.tile ≥ 2 then w
    else
      let hperR := generateRnd 100 w.rng
      let hper := hperR.1
      let rng1 := hperR.2
      let ac0 := player.armor
      let ac1 := if player.acAgainstDemons ∧ monster.classDemon then ac0 + 40 else ac0
      let ac := if player.acAgainstUndead ∧ monster.classUndead then ac1 + 20 else ac1
      let hit1 := hit + 2 * (monster.level - player.level) + 30 - ac
      let hit2 := max hit1 (minHitForLevel w.currlevel)
      let blkR :=
        if (player.pmode = .Stand ∨ player.pmode = .Attack) ∧ player.blockFlag then
          generateRnd 100 rng1
        else (100, rng1)
      let blkper := blkR.1
      let rng2 := blkR.2
      let blk := min (max (player.blockChance - monster.level * 2) 0) 100
      if hper ≥ hit2 then { w with rng := rng2 }
      else if blkper < blk then
        monsterAttackPlayerBlocked { w with rng := rng2 } pnum minDam maxDam
      else
        let w1 := { w with rng := rng2 }
        let w2 : World :=
          if monster.typ = mtYZombie ∧ pnum = w.myPlayerId then
            monsterAttackPlayerDrain w1
          else w1
        let dR := generateRnd ((maxDam - minDam) * 64 + 1) w2.rng
        let dam := max (minDam * 64 + dR.1 + w2.player.getHit * 64) 64
        monsterAttackPlayerLanded { w2 with rng := dR.2 } pnum dam

/-! ## Heal and regeneration (claim C1) -/

/-- The monster fields used by `MonsterHeal` and the per-tick regeneration. -/
structure HealMonster where
  hitPoints : Int
  maxHitPoints : Int
  var1 : Int
  level : Int
  noHeal : Bool
  allowSpecial : Bool
  lockAnim : Bool
  mode : MonsterMode
  currentFrame : Int

/-- `MonsterHeal`: on frame zero, add the per-tick amount stashed in `var1`,
clamping at `maxHitPoints` and leaving Heal mode once full (or immediately
for no-heal monsters). -/
def monsterHeal (m : HealMonster) : HealMonster :=
  if m.noHeal then { m with allowSpecial := false, mode := .SpecialMeleeAttack }
  else if m.currentFrame = 0 then
    let m1 := { m with lockAnim := false, allowSpecial := true }
    if m1.var1 + m1.hitPoints < m1.maxHitPoints then
      { m1 with hitPoints := m1.var1 + m1.hitPoints }
    else
      { m1 with
        hitPoints := m1.maxHitPoints
        allowSpecial := false
        mode := .SpecialMeleeAttack }
  else m

/-- The per-tick regeneration step of `ProcessMonsters`: heal `level` (or
`level / 2` above level 1) sixty-fourths, clamped at `maxHitPoints`. -/
def processMonsterRegen (m : HealMonster) : HealMonster :=
  if ¬m.noHeal ∧ m.hitPoints < m.maxHitPoints ∧ shr6 m.hitPoints > 0 then
    let hp := if m.level > 1 then m.hitPoints + Int.tdiv m.level 2
              else m.hitPoints + m.level
    { m with hitPoints := min hp m.maxHitPoints }
  else m

/-! ## Unique-monster placement search (claim C8) -/

/-- The open-neighbourhood density scan of `PlaceUniqueMonst`: placeable
in-bounds tiles in the half-open 6x6 block `[x-3, x+3) x [y-3, y+3)` around
the candidate. -/
def densityCount (canPlace inBounds : Point → Bool) (c : Point) : Nat :=
  (List.range 6).foldl (fun acc dx =>
    (List.range 6).foldl (fun acc2 dy =>
      let p : Point := ⟨c.x - 3 + dx, c.y - 3 + dy⟩
      if inBounds p && canPlace p then acc2 + 1 else acc2) acc) 0

/-- The candidate loop of `PlaceUniqueMonst`: each round draws a candidate
(`GenerateRnd(80) + 16` twice, embedded as the draw reduced mod 80), counts
its open neighbourhood, and — once either the neighbourhood is dense enough
or 1000 sparse candidates have accumulated — accepts the candidate provided
`CanPlaceMonster` itself holds there; otherwise it loops.  A result of
`none` means the draw stream ran out with the loop still running (the
source would keep drawing forever). -/
def placeUniqueSearch (canPlace inBounds : Point → Bool) :
    Nat → List Int → Option (Point × List Int)
  | _, [] => none
  | _, [_] => none
  | count, dx :: dy :: rest =>
    let position : Point := ⟨(dx.natAbs : Int) % 80 + 16, (dy.natAbs : Int) % 80 + 16⟩
    let count2 := densityCount canPlace inBounds position
    if count2 < 9 ∧ count + 1 < 1000 then
      placeUniqueSearch canPlace inBounds (count + 1) rest
    else
      let count1 := if count2 < 9 then count + 1 else count
      if canPlace position then some (position, rest)
      else placeUniqueSearch canPlace inBounds count1 rest

/-! ## Group placement (claim C9) -/

/-- `UniqueMonsterPack` of the source. -/
inductive UniqueMonsterPack where
  | None
  | Unleashed
  | Leashed
  deriving DecidableEq, Repr

/-- The inputs `PlaceGroup` reads but never writes: the static part of
`CanPlaceMonster` (bounds, players, visibility, set pieces, tile flags —
everything except the monster-occupancy cell), the room-transparency map
`dTransVal`, the pack kind, the leader's tile, the Na-Krul guard facts of
`PlaceMonster`, and the archetype data feeding the draws `InitMonster`
consumes. -/
structure PGConfig where
  staticOk : Point → Bool
  transVal : Point → Int
  pack : UniqueMonsterPack
  leaderTile : Point
  isNakrul : Bool
  nakrulPreexists : Bool
  aiIsGarg : Bool
  ticksPerFrame : Int
  numberOfFrames : Int
  minHPData : Int
  maxHPData : Int

/-- The mutable placement state: `ActiveMonsterCount`, the population budget
`totalmonsters`, the occupancy grid, the per-slot tile record consulted by
the undo loop, the pack size written onto a leashed leader, and the draw
stream. -/
structure PGState where
  active : Int
  total : Int
  grid : Point → Int
  tiles : Int → Point
  leaderPackSize : Int
  rng : List Int

/-- `CanPlaceMonster` split into its static part and the evolving
monster-occupancy cell (the source tests the six conjuncts in one
expression; no draw is involved). -/
def canPlaceMonster (cfg : PGConfig) (grid : Point → Int) (p : Point) : Bool :=
  cfg.staticOk p && grid p = 0

/-- `AdvanceRndSeed`, as a stream: one draw consumed. -/
def advanceRndSeed (r : List Int) : List Int := r.tail

/-- `PlaceMonster` + `InitMonster`, restricted to the placement-relevant
effects: the Na-Krul single-instance guard (an earlier same-archetype or
Na-Krul actor, or one placed earlier in this call, suppresses the spawn),
the occupancy write and tile record, and the draws the initialisation
consumes (facing direction, animation phase counters, the hit-point roll,
and the loot and ai seeds).  The initialised stat fields feed back into no
placement decision and are not tracked. -/
def placeMonster (cfg : PGConfig) (s : PGState) (i : Int) (position : Point)
    (placedSoFar : Int) : PGState :=
  if cfg.isNakrul ∧ (cfg.nakrulPreexists ∨ placedSoFar > 0) then s
  else
    let s1 := { s with
      grid := gridSet s.grid position (i + 1)
      tiles := fun j => if j = i then position else s.tiles j }
    let r1 := (generateRnd 8 s1.rng).2
    let r2 := (generateRnd (cfg.ticksPerFrame - 1) r1).2
    let r3 := (generateRnd (cfg.numberOfFrames - 1) r2).2
    let r4 := (generateRnd (cfg.maxHPData - cfg.minHPData + 1) r3).2
    { s1 with rng := advanceRndSeed (advanceRndSeed r4) }

/-- The undo loop at the head of each `PlaceGroup` retry round: pop every
monster placed in the previous round, clearing its occupancy cell. -/
def pgUndo : Nat → PGState → PGState
  | 0, s => s
  | n + 1, s =>
      let active1 := s.active - 1
      pgUndo n { s with active := active1, grid := gridSet s.grid (s.tiles active1) 0 }

/-- The `do { xp = GenerateRnd(80) + 16; ... } while (!CanPlaceMonster)`
centre search of a non-pack `PlaceGroup`.  The third component is a ghost
count of rejected candidates (used only in theorem hypotheses).  When the
draw stream runs dry the current candidate is returned as a cutoff — the
source would loop forever at that point. -/
def pgPickCenter (cfg : PGConfig) (grid : Point → Int) :
    List Int → Point × List Int × Nat
  | [] => (⟨16, 16⟩, [], 0)
  | [d] => (⟨(d.natAbs : Int) % 80 + 16, 16⟩, [], 0)
  | d1 :: d2 :: rest =>
    let p : Point := ⟨(d1.natAbs : Int) % 80 + 16, (d2.natAbs : Int) % 80 + 16⟩
    if canPlaceMonster cfg grid p then (p, rest, 0)
    else
      let (q, r, ghost) := pgPickCenter cfg grid rest
      (q, r, ghost + 1)

/-- Replacing the draw stream of a placement state. -/
def withRng (s : PGState) (r : List Int) : PGState := { s with rng := r }

/-- The loop increments shared by both inner-loop iterations of
`PlaceGroup` (`xp += Displacement(GenerateRnd(8)).deltaX, yp += ...`): two
direction draws, each adding its `deltaX` — to `yp` as well, a bug the
source keeps for compatibility. -/
def pgAdvance (xp yp : Int) (r : List Int) : Int × Int × List Int :=
  let d1 := generateRnd 8 r
  let d2 := generateRnd 8 d1.2
  (xp + (dirFromInt d1.1).offset.x, yp + (dirFromInt d2.1).offset.x, d2.2)

/-- One successful inner-loop iteration of `PlaceGroup`: `PlaceMonster`,
the pack minion adjustments (the extra animation-phase draw unless the ai
is the gargoyle one), and the `ActiveMonsterCount` bump. -/
def pgPlaceStep (cfg : PGConfig) (s : PGState) (position : Point)
    (placed : Int) : PGState :=
  let s1 := placeMonster cfg s s.active position placed
  let s2 :=
    if cfg.pack ≠ .None ∧ ¬cfg.aiIsGarg then
      { s1 with rng := (generateRnd (cfg.numberOfFrames - 1) s1.rng).2 }
    else s1
  { s2 with active := s2.active + 1 }

/-- The inner placement loop of `PlaceGroup`
(`for (try2 = 0; j < num && try2 < 100; xp += ..., yp += ...)`): a
candidate failing the placement, room-boundary or leash check bumps `try2`;
a success places a monster and bumps `j`/`placed`/`ActiveMonsterCount`;
either way both loop increments apply `pgAdvance`.  `fuel` bounds the
recursion; every call below hands it the loop's intrinsic iteration bound,
so the cutoff is never reached.  The last component is a ghost failure
count used only in theorem hypotheses. -/
def pgInner (cfg : PGConfig) (x1y1 : Point) (num : Int) :
    Nat → Int → Int → Int → Int → Int → PGState → PGState × Int × Nat
  | 0, _, _, _, _, placed, s => (s, placed, 0)
  | fuel + 1, j, try2, xp, yp, placed, s =>
    if j < num ∧ try2 < 100 then
      if ¬canPlaceMonster cfg s.grid ⟨xp, yp⟩
          ∨ cfg.transVal ⟨xp, yp⟩ ≠ cfg.transVal x1y1
          ∨ (cfg.pack = .Leashed ∧
              ((xp - x1y1.x).natAbs ≥ 4 ∨ (yp - x1y1.y).natAbs ≥ 4)) then
        let a := pgAdvance xp yp s.rng
        let t := pgInner cfg x1y1 num fuel j (try2 + 1) a.1 a.2.1 placed
          (withRng s a.2.2)
        (t.1, t.2.1, t.2.2 + 1)
      else
        let s3 := pgPlaceStep cfg s ⟨xp, yp⟩ placed
        let a := pgAdvance xp yp s3.rng
        pgInner cfg x1y1 num fuel (j + 1) try2 a.1 a.2.1 (placed + 1)
          (withRng s3 a.2.2)
    else (s, placed, 0)

/-- The centre pick at the head of each `PlaceGroup` round: a random
leader-adjacent tile for a pack, the `do`/`while` search otherwise. -/
def pgCenter (cfg : PGConfig) (grid : Point → Int) (r : List Int) :
    Point × List Int × Nat :=
  if cfg.pack ≠ UniqueMonsterPack.None then
    (cfg.leaderTile.step (dirFromInt (generateRnd 8 r).1), (generateRnd 8 r).2, 0)
  else pgPickCenter cfg grid r

/-- The retry rounds of `PlaceGroup` (`for (try1 = 0; try1 < 10; try1++)`):
undo the previous round, pick a centre, clamp the requested count to the
remaining population budget, run the inner loop, and stop once a round
placed the full clamped count.  The ghost component accumulates both centre
rejections and inner-loop failures. -/
def pgOuter (cfg : PGConfig) : Nat → Int → Int → PGState → PGState × Int × Nat
  | 0, _, placed, s => (s, placed, 0)
  | t + 1, num, placed, s =>
    let s1 := pgUndo placed.toNat s
    let cR := pgCenter cfg s1.grid s1.rng
    let num1 := if num + s1.active > s1.total then s1.total - s1.active else num
    let iR := pgInner cfg cR.1 num1 (num1.toNat + 100) 0 0 cR.1.x cR.1.y 0
      (withRng s1 cR.2.1)
    if iR.2.1 ≥ num1 then (iR.1, iR.2.1, cR.2.2 + iR.2.2)
    else
      let oR := pgOuter cfg t num1 iR.2.1 iR.1
      (oR.1, oR.2.1, cR.2.2 + iR.2.2 + oR.2.2)

/-- `PlaceGroup(mtype, num, uniqueMonsterPack, leaderId)` together with a
ghost failure count (third component, used only in theorem hypotheses): ten
retry rounds, then the placed count is written to a leashed leader's
`packSize`. -/
def placeGroupAux (cfg : PGConfig) (num : Int) (s : PGState) : PGState × Int × Nat :=
  let oR := pgOuter cfg 10 num 0 s
  (if cfg.pack = .Leashed then { oR.1 with leaderPackSize := oR.2.1 } else oR.1,
   oR.2.1, oR.2.2)

/-- `PlaceGroup` proper: the resulting state. -/
def placeGroup (cfg : PGConfig) (num : Int) (s : PGState) : PGState :=
  (placeGroupAux cfg num s).1

/-! ## Claim C3: `AddMonsterType` idempotence and the archetype cap -/

/-- A concrete full catalog: `maxLvlMTypes` distinct archetypes `0..23`. -/
def c3FullCatalog : TypeCatalog :=
  { count := maxLvlMTypes
    types := fun i => (i : Int)
    placeFlags := fun _ => 0
    imgtot := 0 }

/-- C3, counterexample.  With the catalog already holding the per-level cap
of distinct archetypes, a call with a new archetype is claimed to leave the
count unchanged; in the source it increments `LevelMonsterTypeCount` past
the cap (and writes the entry one slot past the fixed array). -/
theorem c3_cap_counterexample :
    c3FullCatalog.count = maxLvlMTypes ∧
    (addMonsterType (fun _ => 0) c3FullCatalog 24 1).2.count = maxLvlMTypes + 1 := by
  constructor
  · rfl
  · decide

/-- C3 (amended): `AddMonsterType` on an already-registered archetype is
idempotent — count, archetype entries and sprite budget are unchanged, the
placement flag is or-ed into the existing slot, and the existing index is
returned.  For a new archetype the call always increments the count —
also at the cap, where the source performs no check of its own. -/
theorem c3_addMonsterType_amended (mImage : Int → Int) (cat : TypeCatalog)
    (t : Int) (pf : Int) :
    (getMonsterTypeIndex cat t < cat.count →
      (addMonsterType mImage cat t pf).1 = getMonsterTypeIndex cat t ∧
      (addMonsterType mImage cat t pf).2.count = cat.count ∧
      (addMonsterType mImage cat t pf).2.types = cat.types ∧
      (addMonsterType mImage cat t pf).2.imgtot = cat.imgtot ∧
      (addMonsterType mImage cat t pf).2.placeFlags = fun i =>
        if i = getMonsterTypeIndex cat t then Int.lor (cat.placeFlags i) pf
        else cat.placeFlags i) ∧
    (getMonsterTypeIndex cat t = cat.count →
      (addMonsterType mImage cat t pf).2.count = cat.count + 1) := by
  constructor
  · intro h
    have hne : getMonsterTypeIndex cat t ≠ cat.count := Nat.ne_of_lt h
    simp [addMonsterType, hne]
  · intro h
    simp [addMonsterType, h]

/-- C3 witness: the amended theorem applied to a concrete one-entry catalog
(idempotent re-registration) and to the full catalog (count grows past the
cap). -/
theorem c3_addMonsterType_amended_witness :
    ((addMonsterType (fun _ => 0)
        { count := 1, types := fun _ => 7, placeFlags := fun _ => 0, imgtot := 0 }
        7 2).2.count = 1) ∧
    ((addMonsterType (fun _ => 0) c3FullCatalog 24 1).2.count = maxLvlMTypes + 1) :=
  ⟨((c3_addMonsterType_amended (fun _ => 0)
      { count := 1, types := fun _ => 7, placeFlags := fun _ => 0, imgtot := 0 }
      7 2).1 (by decide)).2.1,
   (c3_addMonsterType_amended (fun _ => 0) c3FullCatalog 24 1).2 (by decide)⟩

/-! ## Claim C7: the diagonal corner-cutting guard -/

/-- A world that is open everywhere except one solid tile at `(0, -1)` —
the NorthEast flank of an East step taken from the origin. -/
def c7Env : MoveEnv :=
  { inDungeonBounds := fun _ => true
    isTileAvailable := fun _ => true
    isTileSolid := fun p => p = ⟨0, -1⟩ }

/-- C7, counterexample.  The claim requires a diagonal step to be rejected
whenever either flanking orthogonal tile is solid; an East step from the
origin with its NorthEast flank solid is accepted by `IsRelativeMoveOK`,
because the source checks only the SouthEast flank for East steps. -/
theorem c7_corner_counterexample :
    c7Env.isTileSolid (Point.step ⟨0, 0⟩ .NorthEast) = true ∧
    isRelativeMoveOK c7Env ⟨0, 0⟩ .East = true := by
  decide

/-- C7 (amended): with the destination in bounds and available, a North or
South diagonal step is rejected exactly when either flanking orthogonal
tile is solid, while an East step checks only its SouthEast flank and a
West step only its SouthWest flank. -/
theorem c7_corner_guard_amended (env : MoveEnv) (p : Point) :
    (isRelativeMoveOK env p .North =
      (env.inDungeonBounds (p.step .North) && env.isTileAvailable (p.step .North) &&
        !(env.isTileSolid (p.step .NorthEast) || env.isTileSolid (p.step .NorthWest)))) ∧
    (isRelativeMoveOK env p .South =
      (env.inDungeonBounds (p.step .South) && env.isTileAvailable (p.step .South) &&
        !(env.isTileSolid (p.step .SouthWest) || env.isTileSolid (p.step .SouthEast)))) ∧
    (isRelativeMoveOK env p .East =
      (env.inDungeonBounds (p.step .East) && env.isTileAvailable (p.step .East) &&
        !env.isTileSolid (p.step .SouthEast))) ∧
    (isRelativeMoveOK env p .West =
      (env.inDungeonBounds (p.step .West) && env.isTileAvailable (p.step .West) &&
        !env.isTileSolid (p.step .SouthWest))) := by
  refine ⟨?_, ?_, ?_, ?_⟩ <;>
    · simp only [isRelativeMoveOK]
      cases hb : env.inDungeonBounds _ <;> cases ha : env.isTileAvailable _ <;>
        simp [hb, ha]

/-! ## Claim C6: the leash bound enforced by `DirOK` -/

/-- C6.  For a leashed follower, `DirOK` accepts a direction only if the
destination tile lies at walking distance strictly less than 4 from the
leader's projected (`position.future`) tile. -/
theorem c6_dirOK_leash (env : MoveEnv) (monsters : Nat → MonsterLite)
    (dMonster : Point → Int) (upl : Nat → Bool) (mid : Nat) (mdir : Direction)
    (h : dirOK env monsters dMonster upl mid mdir = true)
    (hl : (monsters mid).leaderRelation = .Leashed) :
    walkingDistance ((monsters mid).tile.step mdir)
      (monsters (monsters mid).leader).future < 4 := by
  simp only [dirOK] at h
  rw [hl] at h
  cases hr : isRelativeMoveOK env (monsters mid).tile mdir <;> rw [hr] at h <;>
    simp at h
  exact h

/-- A concrete two-monster world for the C6 witness: monster 0 is leashed to
monster 1, whose projected tile is `(1, 1)`. -/
def c6Monsters : Nat → MonsterLite := fun i =>
  if i = 0 then
    { tile := ⟨0, 0⟩, future := ⟨0, 0⟩, leaderRelation := .Leashed, leader := 1,
      uniqType := 0, packSize := 0 }
  else
    { tile := ⟨1, 1⟩, future := ⟨1, 1⟩, leaderRelation := .None, leader := 0,
      uniqType := 0, packSize := 0 }

/-- C6 witness: an accepted South step of the leashed follower indeed lands
within distance 4 of its leader's projected tile. -/
theorem c6_dirOK_leash_witness :
    walkingDistance (Point.step ⟨0, 0⟩ .South) (c6Monsters 1).future < 4 :=
  c6_dirOK_leash
    { inDungeonBounds := fun _ => true, isTileAvailable := fun _ => true,
      isTileSolid := fun _ => false }
    c6Monsters (fun _ => 0) (fun _ => false) 0 .South (by decide) (by decide)

/-! ## Claim C8: the `PlaceUniqueMonst` candidate loop -/

/-- The candidate loop only ever exits on a tile accepted by
`CanPlaceMonster`. -/
theorem placeUniqueSearch_sound (canPlace inBounds : Point → Bool) :
    ∀ (l : List Int) (count : Nat) (p : Point) (r : List Int),
      placeUniqueSearch canPlace inBounds count l = some (p, r) → canPlace p = true
  | [], _, _, _, h => by cases h
  | [_], _, _, _, h => by cases h
  | dx :: dy :: rest, count, p, r, h => by
    simp only [placeUniqueSearch] at h
    split at h
    · exact placeUniqueSearch_sound canPlace inBounds rest _ p r h
    · split at h
      · rename_i hcp
        cases h
        exact hcp
      · exact placeUniqueSearch_sound canPlace inBounds rest _ p r h

/-- On a map with no placeable tile the candidate loop never exits, no
matter how many draws it is given. -/
theorem placeUniqueSearch_no_tile (count : Nat) (l : List Int) :
    placeUniqueSearch (fun _ => false) (fun _ => true) count l = none := by
  cases hres : placeUniqueSearch (fun _ => false) (fun _ => true) count l with
  | none => rfl
  | some pr =>
    obtain ⟨p, r⟩ := pr
    have hc := placeUniqueSearch_sound (fun _ => false) (fun _ => true) l count p r hres
    simp at hc

/-- C8, counterexample.  The claim has the loop exit within 1000 random
candidates, falling back to the last one regardless of quality; on a map
with no placeable tile, 1001 candidates (2002 draws) — and any number
more — leave the loop still running, because the fallback still requires
`CanPlaceMonster` on the candidate. -/
theorem c8_unbounded_counterexample :
    placeUniqueSearch (fun _ => false) (fun _ => true) 0 (List.replicate 2002 0) =
      none :=
  placeUniqueSearch_no_tile 0 (List.replicate 2002 0)

/-- C8 (amended): the loop only ever exits on a candidate satisfying
`CanPlaceMonster`; after 1000 sparse candidates the density requirement is
waived, so any placeable candidate is then accepted regardless of its open
neighbourhood — but a run out of placeable candidates never exits. -/
theorem c8_search_amended :
    (∀ (canPlace inBounds : Point → Bool) (count : Nat) (l : List Int)
        (p : Point) (r : List Int),
      placeUniqueSearch canPlace inBounds count l = some (p, r) → canPlace p = true) ∧
    (∀ (canPlace inBounds : Point → Bool) (count : Nat) (d1 d2 : Int)
        (rest : List Int),
      999 ≤ count →
      canPlace ⟨(d1.natAbs : Int) % 80 + 16, (d2.natAbs : Int) % 80 + 16⟩ = true →
      placeUniqueSearch canPlace inBounds count (d1 :: d2 :: rest) =
        some (⟨(d1.natAbs : Int) % 80 + 16, (d2.natAbs : Int) % 80 + 16⟩, rest)) := by
  constructor
  · intro canPlace inBounds count l p r h
    exact placeUniqueSearch_sound canPlace inBounds l count p r h
  · intro canPlace inBounds count d1 d2 rest hcount hcp
    simp only [placeUniqueSearch]
    have hno : ¬(densityCount canPlace inBounds
        ⟨(d1.natAbs : Int) % 80 + 16, (d2.natAbs : Int) % 80 + 16⟩ < 9 ∧
        count + 1 < 1000) := by
      rintro ⟨-, hlt⟩
      omega
    rw [if_neg hno, if_pos hcp]

/-- C8 witness: with the sparse-candidate budget exhausted (`count = 999`)
an everywhere-placeable map accepts the next candidate at once. -/
theorem c8_search_amended_witness :
    placeUniqueSearch (fun _ => true) (fun _ => true) 999 [0, 0] =
      some (⟨16, 16⟩, []) :=
  c8_search_amended.2 (fun _ => true) (fun _ => true) 999 0 0 []
    (by norm_num) rfl

/-! ## Claim C5: occupancy-grid handling of the walking modes -/

/-- External animation progress: the animation subsystem replacing the walk
animation's counters (the walk code only reads them). -/
def withAnim (s : WalkState) (a : AnimInfo) : WalkState :=
  { s with monster := { s.monster with anim := a } }

/-- A concrete one-monster world on tile `(5, 5)` about to walk south. -/
def c5Base : WalkState :=
  { monster := { id := 0, mode := .Stand, tile := ⟨5, 5⟩, old := ⟨5, 5⟩,
                 future := ⟨5, 5⟩, temp := ⟨0, 0⟩, var1 := 0, var2 := 0, var3 := 0,
                 offX := 0, offY := 0, off2X := 0, off2Y := 0, velX := 0, velY := 0,
                 direction := .South,
                 anim := { currentFrame := 0, numberOfFrames := 8,
                           tickCounterOfCurrentFrame := 0 } }
    grid := fun p => if p = ⟨5, 5⟩ then 1 else 0 }

/-- C5, counterexample.  The claim has every walking-mode entry mark the
tile being entered with a negative in-transit marker; `WalkSouthwards`
entering tile `(6, 6)` writes the positive occupant marker `id + 1 = 1`
there (the negative marker goes on the vacated tile instead). -/
theorem c5_entry_counterexample :
    (walkSouthwards c5Base 0 0 0 0 1 1 .South).monster.future = ⟨6, 6⟩ ∧
    (walkSouthwards c5Base 0 0 0 0 1 1 .South).grid ⟨6, 6⟩ = 1 ∧
    ¬(walkSouthwards c5Base 0 0 0 0 1 1 .South).grid ⟨6, 6⟩ < 0 := by
  refine ⟨rfl, rfl, by decide⟩

/-- C5 (amended): at entry, `WalkNorthwards` marks the destination with the
negative in-transit marker (the source tile keeps its previous cell), while
`WalkSouthwards` and `WalkSideways` mark the vacated source tile negative
and the destination positive; at completion of each of the three modes the
vacated source cell is 0, the destination cell holds the positive occupant
marker `id + 1`, the monster stands on the destination, and the mode
reports finished. -/
theorem c5_walk_occupancy_amended
    (s : WalkState) (xvel yvel xoff yoff xadd yadd mapx mapy : Int)
    (endDir : Direction) (a : AnimInfo)
    (ha : a.currentFrame = a.numberOfFrames - 1)
    (hne : (⟨xadd + s.monster.tile.x, yadd + s.monster.tile.y⟩ : Point) ≠ s.monster.tile) :
    ((walkNorthwards s xvel yvel xadd yadd endDir).grid
        ⟨xadd + s.monster.tile.x, yadd + s.monster.tile.y⟩ = -(s.monster.id + 1 : Int)) ∧
    ((walkSouthwards s xvel yvel xoff yoff xadd yadd endDir).grid s.monster.tile
        = -(s.monster.id + 1 : Int)) ∧
    ((walkSouthwards s xvel yvel xoff yoff xadd yadd endDir).grid
        ⟨xadd + s.monster.tile.x, yadd + s.monster.tile.y⟩ = (s.monster.id + 1 : Int)) ∧
    ((walkSideways s xvel yvel xoff yoff xadd yadd mapx mapy endDir).grid s.monster.tile
        = -(s.monster.id + 1 : Int)) ∧
    ((walkSideways s xvel yvel xoff yoff xadd yadd mapx mapy endDir).grid
        ⟨xadd + s.monster.tile.x, yadd + s.monster.tile.y⟩ = (s.monster.id + 1 : Int)) ∧
    (let c := monsterWalk (withAnim (walkNorthwards s xvel yvel xadd yadd endDir) a)
        .MoveNorthwards;
      c.1.grid s.monster.tile = 0 ∧
      c.1.grid ⟨xadd + s.monster.tile.x, yadd + s.monster.tile.y⟩
        = (s.monster.id + 1 : Int) ∧
      c.1.monster.tile = ⟨xadd + s.monster.tile.x, yadd + s.monster.tile.y⟩ ∧
      c.2 = true) ∧
    (let c := monsterWalk
        (withAnim (walkSouthwards s xvel yvel xoff yoff xadd yadd endDir) a)
        .MoveSouthwards;
      c.1.grid s.monster.tile = 0 ∧
      c.1.grid ⟨xadd + s.monster.tile.x, yadd + s.monster.tile.y⟩
        = (s.monster.id + 1 : Int) ∧
      c.1.monster.tile = ⟨xadd + s.monster.tile.x, yadd + s.monster.tile.y⟩ ∧
      c.2 = true) ∧
    (let c := monsterWalk
        (withAnim (walkSideways s xvel yvel xoff yoff xadd yadd mapx mapy endDir) a)
        .MoveSideways;
      c.1.grid s.monster.tile = 0 ∧
      c.1.grid ⟨xadd + s.monster.tile.x, yadd + s.monster.tile.y⟩
        = (s.monster.id + 1 : Int) ∧
      c.1.monster.tile = ⟨xadd + s.monster.tile.x, yadd + s.monster.tile.y⟩ ∧
      c.2 = true) := by
  have hcomm : (⟨s.monster.tile.x + xadd, s.monster.tile.y + yadd⟩ : Point) =
      ⟨xadd + s.monster.tile.x, yadd + s.monster.tile.y⟩ := by
    rw [Int.add_comm s.monster.tile.x xadd, Int.add_comm s.monster.tile.y yadd]
  have hd1 : ((⟨xadd + s.monster.tile.x, yadd + s.monster.tile.y⟩ : Point) =
      s.monster.tile) = False := eq_false hne
  have hd2 : (s.monster.tile =
      (⟨xadd + s.monster.tile.x, yadd + s.monster.tile.y⟩ : Point)) = False :=
    eq_false (Ne.symm hne)
  refine ⟨?_, ?_, ?_, ?_, ?_, ⟨?_, ?_, ?_, ?_⟩, ⟨?_, ?_, ?_, ?_⟩, ⟨?_, ?_, ?_, ?_⟩⟩ <;>
    simp [walkNorthwards, walkSouthwards, walkSideways, monsterWalk, mStartStand,
      withAnim, gridSet, ha, hcomm, hd1, hd2]

/-- C5 witness: the amended facts at the concrete southbound walk of
`c5Base`. -/
theorem c5_walk_occupancy_amended_witness :
    ((walkSouthwards c5Base 0 0 0 0 1 1 .South).grid c5Base.monster.tile
      = -(c5Base.monster.id + 1 : Int)) ∧
    (monsterWalk
        (withAnim (walkSouthwards c5Base 0 0 0 0 1 1 .South)
          { currentFrame := 7, numberOfFrames := 8, tickCounterOfCurrentFrame := 0 })
        .MoveSouthwards).1.grid ⟨6, 6⟩ = 1 :=
  let h := c5_walk_occupancy_amended c5Base 0 0 0 0 1 1 0 0 .South
    { currentFrame := 7, numberOfFrames := 8, tickCounterOfCurrentFrame := 0 }
    (by decide) (by decide)
  ⟨h.2.1, h.2.2.2.2.2.2.1.2.1⟩

/-! ## Concrete combat worlds used by witnesses and counterexamples -/

/-- A healthy level-1 defender on tile `(1, 1)` with no gear effects. -/
def basePlayer : Player :=
  { hitPoints := 6400, maxHP := 6400, hpBase := 6400, maxHPBase := 6400,
    invincible := false, etherealize := false, level := 1, armor := 0,
    blockChance := 0, blockFlag := false, pmode := .Other, acAgainstDemons := false,
    acAgainstUndead := false, getHit := 0, reflections := 0, thorns := false,
    tile := ⟨1, 1⟩, future := ⟨1, 1⟩ }

/-- A plain level-2 monster with 10 whole hit points on tile `(2, 2)`. -/
def baseMonster : Monster :=
  { id := 5, typ := 1, mode := .Stand, goal := 1, goalVar1 := 0, goalVar2 := 0,
    goalVar3 := 0, hitPoints := 640, maxHitPoints := 640, level := 2, exp := 100,
    whoHit := 0, intelligence := 0, tile := ⟨2, 2⟩, old := ⟨2, 2⟩, future := ⟨2, 2⟩,
    temp := ⟨0, 0⟩, offX := 0, offY := 0, off2X := 0, off2Y := 0, var1 := 0,
    var2 := 0, var3 := 0, direction := .South, enemy := 0, enemyPosition := ⟨1, 1⟩,
    targetsMonster := false, noLifesteal := false, knockback := false,
    classDemon := false, classUndead := false, rndItemSeed := 42 }

/-- A single-player dungeon-level-1 world holding the two actors above. -/
def baseWorld : World :=
  { monster := baseMonster, player := basePlayer, killCounts := fun _ => 0,
    grid := fun p => if p = ⟨2, 2⟩ then 6 else 0,
    dPlayer := fun p => if p = ⟨1, 1⟩ then 1 else 0,
    rng := [], events := [], currlevel := 1, myPlayerId := 0, multiplayer := false,
    hellfire := false, inBounds := fun _ => true, tileAvail := fun _ => true,
    posOkPlayer := fun _ => false, applyDamage := fun hp dam => hp - dam,
    getDir := fun _ _ => .South }

/-! ## Claim C2: idempotence of the death pipeline -/

/-- A world whose monster is already dead: zero hit points, Death mode. -/
def c2DeadWorld : World :=
  { baseWorld with monster := { baseMonster with hitPoints := 0, mode := .Death } }

/-- C2, counterexample.  `M_StartKill` on an already-dead monster (zero hit
points, Death mode) is claimed to be a no-op; the source re-runs the whole
pipeline: the per-archetype kill counter rises again, loot is spawned again
and experience is awarded again. -/
theorem c2_deathPipeline_counterexample :
    c2DeadWorld.monster.hitPoints = 0 ∧ c2DeadWorld.monster.mode = .Death ∧
    (mStartKill c2DeadWorld 0).killCounts c2DeadWorld.monster.typ
      = c2DeadWorld.killCounts c2DeadWorld.monster.typ + 1 ∧
    Event.spawnLoot true ∈ (mStartKill c2DeadWorld 0).events ∧
    Event.addPlrMonstExper 2 100 1 ∈ (mStartKill c2DeadWorld 0).events := by
  decide

/-- C2 (amended): only `M_SyncStartKill` guards against an already-dead
monster — on zero hit points or Death mode it is a complete no-op —
while `M_StartKill`/`StartMonsterDeath`/`MonsterDeath` run the pipeline
unconditionally. -/
theorem c2_syncStartKill_amended (w : World) (position : Point) (pnum : Int)
    (h : w.monster.hitPoints = 0 ∨ w.monster.mode = .Death) :
    mSyncStartKill w position pnum = w := by
  unfold mSyncStartKill
  rcases h with h | h <;> simp [h]

/-- C2 witness: the sync-kill no-op at the concrete dead monster. -/
theorem c2_syncStartKill_amended_witness :
    mSyncStartKill c2DeadWorld ⟨0, 0⟩ 0 = c2DeadWorld :=
  c2_syncStartKill_amended c2DeadWorld ⟨0, 0⟩ 0 (Or.inl rfl)

/-! ## Claim C1: `hitPoints <= maxHitPoints` across regen, heal and damage -/

/-- Fields of the world that none of the damage helpers modify: the
monster's maximum hit points, archetype and no-lifesteal flag, and the
multiplayer switch. -/
def KeepsVitals (w w2 : World) : Prop :=
  w2.monster.maxHitPoints = w.monster.maxHitPoints ∧
  w2.monster.typ = w.monster.typ ∧
  w2.monster.noLifesteal = w.monster.noLifesteal ∧
  w2.multiplayer = w.multiplayer

theorem keepsVitals_rfl (w : World) : KeepsVitals w w := ⟨rfl, rfl, rfl, rfl⟩

theorem keepsVitals_trans {w1 w2 w3 : World} (h1 : KeepsVitals w1 w2)
    (h2 : KeepsVitals w2 w3) : KeepsVitals w1 w3 :=
  ⟨h2.1.trans h1.1, h2.2.1.trans h1.2.1, h2.2.2.1.trans h1.2.2.1,
   h2.2.2.2.trans h1.2.2.2⟩

set_option maxHeartbeats 2000000 in
theorem monsterDeath_vitals (w : World) (pnum : Int) (md : Direction) (sm : Bool) :
    KeepsVitals w (monsterDeath w pnum md sm) ∧
    (monsterDeath w pnum md sm).monster.hitPoints = 0 := by
  simp only [monsterDeath, addEvent, KeepsVitals]
  split_ifs <;> exact ⟨⟨rfl, rfl, rfl, rfl⟩, rfl⟩

theorem startMonsterDeath_vitals (w : World) (pnum : Int) (sm : Bool) :
    KeepsVitals w (startMonsterDeath w pnum sm) ∧
    (startMonsterDeath w pnum sm).monster.hitPoints = 0 := by
  unfold startMonsterDeath
  exact monsterDeath_vitals w pnum _ sm

theorem mStartKill_vitals (w : World) (pnum : Int) :
    KeepsVitals w (mStartKill w pnum) ∧
    (mStartKill w pnum).monster.hitPoints = 0 := by
  simp only [mStartKill, addEvent]
  split_ifs <;> exact startMonsterDeath_vitals _ pnum true

theorem teleport_vitals (w : World) :
    KeepsVitals w (teleport w) ∧
    (teleport w).monster.hitPoints = w.monster.hitPoints := by
  simp only [teleport]
  split_ifs
  · exact ⟨keepsVitals_rfl w, rfl⟩
  · rcases hgt : getTeleportTile w with ⟨opt, rng2⟩
    cases opt <;> exact ⟨⟨rfl, rfl, rfl, rfl⟩, rfl⟩

theorem startMonsterGotHit_vitals (w : World) :
    KeepsVitals w (startMonsterGotHit w) ∧
    (startMonsterGotHit w).monster.hitPoints = w.monster.hitPoints := by
  simp only [startMonsterGotHit]
  split_ifs <;> exact ⟨⟨rfl, rfl, rfl, rfl⟩, rfl⟩

/-- Composition helper: `StartMonsterGotHit` after any vitals-preserving
step. -/
theorem goth_after {w w2 : World} (h : KeepsVitals w w2)
    (hhp : w2.monster.hitPoints = w.monster.hitPoints) :
    KeepsVitals w (startMonsterGotHit w2) ∧
    (startMonsterGotHit w2).monster.hitPoints = w.monster.hitPoints :=
  ⟨keepsVitals_trans h (startMonsterGotHit_vitals w2).1,
   (startMonsterGotHit_vitals w2).2.trans hhp⟩

set_option maxHeartbeats 1000000 in
theorem mStartHitDam_vitals (w : World) (dam : Int) :
    KeepsVitals w (mStartHitDam w dam) ∧
    (mStartHitDam w dam).monster.hitPoints = w.monster.hitPoints := by
  simp only [mStartHitDam, addEvent]
  split_ifs
  · exact goth_after (teleport_vitals (addEvent w (.playEffect 1))).1
      (teleport_vitals (addEvent w (.playEffect 1))).2
  · exact teleport_vitals (addEvent w (.playEffect 1))
  · exact goth_after ⟨rfl, rfl, rfl, rfl⟩ rfl
  · exact ⟨⟨rfl, rfl, rfl, rfl⟩, rfl⟩
  · exact goth_after ⟨rfl, rfl, rfl, rfl⟩ rfl
  · exact ⟨⟨rfl, rfl, rfl, rfl⟩, rfl⟩
  · exact ⟨⟨rfl, rfl, rfl, rfl⟩, rfl⟩

/-- Composition helper: the hit reaction after any vitals-preserving step. -/
theorem hitDam_after {w w2 : World} (dam : Int) (h : KeepsVitals w w2)
    (hhp : w2.monster.hitPoints = w.monster.hitPoints) :
    KeepsVitals w (mStartHitDam w2 dam) ∧
    (mStartHitDam w2 dam).monster.hitPoints = w.monster.hitPoints :=
  ⟨keepsVitals_trans h (mStartHitDam_vitals w2 dam).1,
   (mStartHitDam_vitals w2 dam).2.trans hhp⟩

set_option maxHeartbeats 1000000 in
theorem mStartHitPlr_vitals (w : World) (pnum dam : Int) :
    KeepsVitals w (mStartHitPlr w pnum dam) ∧
    (mStartHitPlr w pnum dam).monster.hitPoints = w.monster.hitPoints := by
  simp only [mStartHitPlr, addEvent]
  split_ifs <;> exact hitDam_after dam ⟨rfl, rfl, rfl, rfl⟩ rfl

theorem mStartStandC_vitals (w : World) (md : Direction) :
    KeepsVitals w (mStartStandC w md) ∧
    (mStartStandC w md).monster.hitPoints = w.monster.hitPoints :=
  ⟨⟨rfl, rfl, rfl, rfl⟩, rfl⟩

/-- Composition helpers for the two exits of `CheckReflect`. -/
theorem kill_keeps {w w2 : World} (pnum : Int) (h : KeepsVitals w w2) :
    KeepsVitals w (mStartKill w2 pnum) :=
  keepsVitals_trans h (mStartKill_vitals w2 pnum).1

theorem hitPlr_keeps {w w2 : World} (pnum dam : Int) (h : KeepsVitals w w2) :
    KeepsVitals w (mStartHitPlr w2 pnum dam) :=
  keepsVitals_trans h (mStartHitPlr_vitals w2 pnum dam).1

theorem generateRnd_ten (l : List Int) :
    generateRnd 10 l = (((l.headD 0).natAbs : Int) % 10, l.tail) := rfl

set_option maxHeartbeats 1000000 in
theorem checkReflect_vitals (w : World) (pnum dam : Int) (hd : 0 ≤ dam) :
    KeepsVitals w (checkReflect w pnum dam) ∧
    ((checkReflect w pnum dam).monster.hitPoints ≤ w.monster.hitPoints ∨
      (checkReflect w pnum dam).monster.hitPoints = 0) := by
  have hr : ∀ l : List Int, (0 : Int) ≤ ((l.headD 0).natAbs : Int) % 10 :=
    fun l => Int.emod_nonneg _ (by norm_num)
  have hmd : ∀ l : List Int,
      0 ≤ Int.tdiv (dam * (((l.headD 0).natAbs : Int) % 10 + 20)) 100 :=
    fun l => Int.tdiv_nonneg (mul_nonneg hd (by linarith [hr l])) (by norm_num)
  simp only [checkReflect, generateRnd_ten]
  split_ifs
  · refine ⟨kill_keeps pnum ?_, Or.inr (mStartKill_vitals _ pnum).2⟩
    exact ⟨rfl, rfl, rfl, rfl⟩
  · refine ⟨hitPlr_keeps pnum _ ?_, Or.inl ?_⟩
    · exact ⟨rfl, rfl, rfl, rfl⟩
    · refine le_trans (le_of_eq (mStartHitPlr_vitals _ pnum _).2) ?_
      exact sub_le_self _ (hmd _)
  · refine ⟨kill_keeps pnum ?_, Or.inr (mStartKill_vitals _ pnum).2⟩
    exact ⟨rfl, rfl, rfl, rfl⟩
  · refine ⟨hitPlr_keeps pnum _ ?_, Or.inl ?_⟩
    · exact ⟨rfl, rfl, rfl, rfl⟩
    · refine le_trans (le_of_eq (mStartHitPlr_vitals _ pnum _).2) ?_
      exact sub_le_self _ (hmd _)

/-- The invariant carried through a damage path: the protected fields are
unchanged and the hit points have not risen (or have been forced to zero or
below). -/
def Safe (w0 w2 : World) : Prop :=
  KeepsVitals w0 w2 ∧
  (w2.monster.hitPoints ≤ w0.monster.hitPoints ∨ w2.monster.hitPoints ≤ 0)

theorem hp_le_max_of_safe {w0 w2 : World} (h : Safe w0 w2)
    (hinv : w0.monster.hitPoints ≤ w0.monster.maxHitPoints)
    (hmax : 0 ≤ w0.monster.maxHitPoints) :
    w2.monster.hitPoints ≤ w2.monster.maxHitPoints := by
  obtain ⟨⟨hm, -, -, -⟩, hor⟩ := h
  rcases hor with h1 | h1 <;> omega

theorem safe_mono {w0 w2 w3 : World} (h : Safe w0 w2) (hkv : KeepsVitals w2 w3)
    (hhp : w3.monster.hitPoints ≤ w2.monster.hitPoints ∨ w3.monster.hitPoints ≤ 0) :
    Safe w0 w3 := by
  obtain ⟨⟨hm, ht, hn, hp⟩, hor⟩ := h
  obtain ⟨hm2, ht2, hn2, hp2⟩ := hkv
  refine ⟨⟨hm2.trans hm, ht2.trans ht, hn2.trans hn, hp2.trans hp⟩, ?_⟩
  rcases hor with h1 | h1 <;> rcases hhp with h2 | h2 <;> omega

theorem safe_kill {w0 w2 : World} (pnum : Int) (h : Safe w0 w2) :
    Safe w0 (mStartKill w2 pnum) :=
  safe_mono h (mStartKill_vitals w2 pnum).1
    (Or.inr (le_of_eq (mStartKill_vitals w2 pnum).2))

theorem safe_hitPlr {w0 w2 : World} (pnum dam : Int) (h : Safe w0 w2) :
    Safe w0 (mStartHitPlr w2 pnum dam) :=
  safe_mono h (mStartHitPlr_vitals w2 pnum dam).1
    (Or.inl (le_of_eq (mStartHitPlr_vitals w2 pnum dam).2))

theorem safe_standC {w0 w2 : World} (md : Direction) (h : Safe w0 w2) :
    Safe w0 (mStartStandC w2 md) :=
  safe_mono h (mStartStandC_vitals w2 md).1
    (Or.inl (le_of_eq (mStartStandC_vitals w2 md).2))

theorem safe_checkReflect {w0 w2 : World} (pnum dam : Int) (hd : 0 ≤ dam)
    (h : Safe w0 w2) : Safe w0 (checkReflect w2 pnum dam) := by
  obtain ⟨kv, hor⟩ := checkReflect_vitals w2 pnum dam hd
  refine safe_mono h kv ?_
  rcases hor with h1 | h1
  · exact Or.inl h1
  · exact Or.inr (le_of_eq h1)

theorem safe_rfl_like {w0 w2 : World} (hkv : KeepsVitals w0 w2)
    (hhp : w2.monster.hitPoints = w0.monster.hitPoints) : Safe w0 w2 :=
  ⟨hkv, Or.inl (le_of_eq hhp)⟩

theorem dam_floor_nonneg (x : Int) : (0 : Int) ≤ max x 64 :=
  le_trans (by norm_num) (le_max_right x 64)

theorem safe_rfl (w : World) : Safe w w :=
  ⟨⟨rfl, rfl, rfl, rfl⟩, Or.inl le_rfl⟩

theorem safe_addEvent {w0 : World} (W : World) (e : Event) (h : Safe w0 W) :
    Safe w0 (addEvent W e) := ⟨h.1, h.2⟩

theorem safe_setRng {w0 : World} (W : World) (R : List Int) (h : Safe w0 W) :
    Safe w0 { W with rng := R } := ⟨h.1, h.2⟩

theorem safe_setPlayer {w0 : World} (W : World) (P : Player) (h : Safe w0 W) :
    Safe w0 { W with player := P } := ⟨h.1, h.2⟩

theorem safe_setDPlayer {w0 : World} (W : World) (D : Point → Int) (h : Safe w0 W) :
    Safe w0 { W with dPlayer := D } := ⟨h.1, h.2⟩

theorem safe_subHp {w0 : World} (W : World) (M : Int) (R : List Int) (hm : 0 ≤ M)
    (h : Safe w0 W) :
    Safe w0 { W with
      monster := { W.monster with hitPoints := W.monster.hitPoints - M }
      rng := R } :=
  safe_mono h ⟨rfl, rfl, rfl, rfl⟩ (Or.inl (sub_le_self _ hm))

theorem generateRnd_fst_nonneg (v : Int) (l : List Int) : 0 ≤ (generateRnd v l).1 := by
  unfold generateRnd
  split
  · exact le_refl 0
  · exact Int.emod_nonneg _ (by omega)

theorem thorns_mdam_nonneg (l : List Int) : 0 ≤ ((generateRnd 3 l).1 + 1) * 64 :=
  mul_nonneg (by linarith [generateRnd_fst_nonneg 3 l]) (by norm_num)

/-- `CheckReflect` preserves the protected fields unconditionally. -/
theorem checkReflect_kv (w : World) (pnum dam : Int) :
    KeepsVitals w (checkReflect w pnum dam) := by
  simp only [checkReflect, generateRnd_ten]
  split_ifs
  · exact kill_keeps pnum ⟨rfl, rfl, rfl, rfl⟩
  · exact hitPlr_keeps pnum _ ⟨rfl, rfl, rfl, rfl⟩
  · exact kill_keeps pnum ⟨rfl, rfl, rfl, rfl⟩
  · exact hitPlr_keeps pnum _ ⟨rfl, rfl, rfl, rfl⟩

theorem addEvent_monster (w : World) (e : Event) : (addEvent w e).monster = w.monster :=
  rfl

theorem addEvent_multiplayer (w : World) (e : Event) :
    (addEvent w e).multiplayer = w.multiplayer := rfl

theorem checkReflect_typ (w : World) (pnum dam : Int) :
    (checkReflect w pnum dam).monster.typ = w.monster.typ :=
  (checkReflect_kv w pnum dam).2.1

theorem checkReflect_nls (w : World) (pnum dam : Int) :
    (checkReflect w pnum dam).monster.noLifesteal = w.monster.noLifesteal :=
  (checkReflect_kv w pnum dam).2.2.1

theorem checkReflect_mp (w : World) (pnum dam : Int) :
    (checkReflect w pnum dam).multiplayer = w.multiplayer :=
  (checkReflect_kv w pnum dam).2.2.2

theorem mStartKill_typ (w : World) (pnum : Int) :
    (mStartKill w pnum).monster.typ = w.monster.typ :=
  (mStartKill_vitals w pnum).1.2.1

theorem mStartKill_nls (w : World) (pnum : Int) :
    (mStartKill w pnum).monster.noLifesteal = w.monster.noLifesteal :=
  (mStartKill_vitals w pnum).1.2.2.1

theorem mStartKill_mp (w : World) (pnum : Int) :
    (mStartKill w pnum).multiplayer = w.multiplayer :=
  (mStartKill_vitals w pnum).1.2.2.2

theorem mStartHitPlr_typ (w : World) (pnum dam : Int) :
    (mStartHitPlr w pnum dam).monster.typ = w.monster.typ :=
  (mStartHitPlr_vitals w pnum dam).1.2.1

theorem mStartHitPlr_nls (w : World) (pnum dam : Int) :
    (mStartHitPlr w pnum dam).monster.noLifesteal = w.monster.noLifesteal :=
  (mStartHitPlr_vitals w pnum dam).1.2.2.1

theorem mStartHitPlr_mp (w : World) (pnum dam : Int) :
    (mStartHitPlr w pnum dam).multiplayer = w.multiplayer :=
  (mStartHitPlr_vitals w pnum dam).1.2.2.2

theorem kv_rfl (w : World) : KeepsVitals w w := ⟨rfl, rfl, rfl, rfl⟩

theorem kv_addEvent {w0 : World} (W : World) (e : Event) (h : KeepsVitals w0 W) :
    KeepsVitals w0 (addEvent W e) := h

theorem kv_setRng {w0 : World} (W : World) (R : List Int) (h : KeepsVitals w0 W) :
    KeepsVitals w0 { W with rng := R } := h

theorem kv_setPlayer {w0 : World} (W : World) (P : Player) (h : KeepsVitals w0 W) :
    KeepsVitals w0 { W with player := P } := h

theorem kv_setDPlayer {w0 : World} (W : World) (D : Point → Int) (h : KeepsVitals w0 W) :
    KeepsVitals w0 { W with dPlayer := D } := h

theorem kv_subHp {w0 : World} (W : World) (M : Int) (R : List Int)
    (h : KeepsVitals w0 W) :
    KeepsVitals w0 { W with
      monster := { W.monster with hitPoints := W.monster.hitPoints - M }
      rng := R } := h

theorem kv_kill {w0 : World} (W : World) (pnum : Int) (h : KeepsVitals w0 W) :
    KeepsVitals w0 (mStartKill W pnum) :=
  keepsVitals_trans h (mStartKill_vitals W pnum).1

theorem kv_hitPlr {w0 : World} (W : World) (pnum dam : Int) (h : KeepsVitals w0 W) :
    KeepsVitals w0 (mStartHitPlr W pnum dam) :=
  keepsVitals_trans h (mStartHitPlr_vitals W pnum dam).1

theorem kv_checkReflect {w0 : World} (W : World) (pnum dam : Int)
    (h : KeepsVitals w0 W) : KeepsVitals w0 (checkReflect W pnum dam) :=
  keepsVitals_trans h (checkReflect_kv W pnum dam)

/-- The multiplayer Skeleton-King life-steal branch is unreachable for a
monster excluded from it, because no damage helper changes the fields its
guard reads. -/
theorem lifesteal_contra {w0 X : World}
    (hc : ¬X.monster.noLifesteal = true ∧ X.monster.typ = mtSKing ∧
      X.multiplayer = true)
    (hkv : KeepsVitals w0 X)
    (hls : w0.monster.typ ≠ mtSKing ∨ w0.multiplayer = false ∨
      w0.monster.noLifesteal = true) : False := by
  obtain ⟨hm2, ht2, hn2, hp2⟩ := hkv
  rcases hls with hA | hA | hA
  · exact hA (ht2.symm.trans hc.2.1)
  · have hx := hp2.symm.trans hc.2.2
    rw [hA] at hx
    exact absurd hx (by decide)
  · exact hc.1 (hn2.trans hA)

theorem safe_trans {w0 w1 w2 : World} (h1 : Safe w0 w1) (h2 : Safe w1 w2) :
    Safe w0 w2 :=
  safe_mono h1 h2.1 h2.2

/-- The life-steal exclusion transported along a vitals-preserving prefix. -/
theorem hls_transport {w0 X : World} (hkv : KeepsVitals w0 X)
    (hls : w0.monster.typ ≠ mtSKing ∨ w0.multiplayer = false ∨
      w0.monster.noLifesteal = true) :
    X.monster.typ ≠ mtSKing ∨ X.multiplayer = false ∨
      X.monster.noLifesteal = true := by
  obtain ⟨-, ht, hn, hp⟩ := hkv
  rcases hls with hA | hA | hA
  · exact Or.inl (by rw [ht]; exact hA)
  · exact Or.inr (Or.inl (by rw [hp]; exact hA))
  · exact Or.inr (Or.inr (by rw [hn]; exact hA))

theorem blocked_safe (w : World) (pnum minDam maxDam : Int) :
    Safe w (monsterAttackPlayerBlocked w pnum minDam maxDam) := by
  simp only [monsterAttackPlayerBlocked]
  split_ifs
  · refine safe_checkReflect pnum _ (dam_floor_nonneg _) ?_
    refine safe_setRng _ _ ?_
    exact safe_addEvent _ _ (safe_rfl _)
  · exact safe_addEvent _ _ (safe_rfl _)

theorem drain_safe (w : World) : Safe w (monsterAttackPlayerDrain w) := by
  simp only [monsterAttackPlayerDrain]
  split_ifs <;> exact ⟨⟨rfl, rfl, rfl, rfl⟩, Or.inl le_rfl⟩

theorem reflectApply_safe (w3 : World) (pnum dam : Int) (hd : 0 ≤ dam) :
    Safe w3 (landedReflectApply w3 pnum dam) := by
  simp only [landedReflectApply]
  split_ifs
  · refine safe_setPlayer _ _ ?_
    refine safe_addEvent _ _ ?_
    exact safe_checkReflect pnum _ hd (safe_rfl _)
  · refine safe_setPlayer _ _ ?_
    exact safe_addEvent _ _ (safe_rfl _)
  · exact safe_rfl _

theorem thorns_safe (w4 : World) (pnum : Int) : Safe w4 (landedThorns w4 pnum) := by
  simp only [landedThorns]
  split_ifs
  · exact safe_kill pnum (safe_subHp _ _ _ (thorns_mdam_nonneg _) (safe_rfl _))
  · exact safe_hitPlr pnum _ (safe_subHp _ _ _ (thorns_mdam_nonneg _) (safe_rfl _))
  · exact safe_rfl _

/-- The life-steal step is skipped for every excluded monster. -/
theorem lifesteal_skip (w5 : World) (dam : Int)
    (hls : w5.monster.typ ≠ mtSKing ∨ w5.multiplayer = false ∨
      w5.monster.noLifesteal = true) :
    landedLifesteal w5 dam = w5 := by
  simp only [landedLifesteal]
  rw [if_neg]
  rintro ⟨hn, ht, hm⟩
  rcases hls with hA | hA | hA
  · exact hA ht
  · rw [hA] at hm; exact absurd hm (by decide)
  · exact hn hA

theorem finish_safe (w6 : World) (pnum dam : Int) :
    Safe w6 (landedFinish w6 pnum dam) := by
  simp only [landedFinish]
  split_ifs
  all_goals
    solve
    | (repeat
        first
        | exact safe_rfl _
        | refine safe_addEvent _ _ ?_
        | refine safe_setPlayer _ _ ?_
        | refine safe_setDPlayer _ _ ?_
        | refine safe_standC _ ?_)

set_option maxHeartbeats 1000000 in
theorem landed_safe (w : World) (pnum dam : Int) (hd : 0 ≤ dam)
    (hls : w.monster.typ ≠ mtSKing ∨ w.multiplayer = false ∨
      w.monster.noLifesteal = true) :
    Safe w (monsterAttackPlayerLanded w pnum dam) := by
  unfold monsterAttackPlayerLanded
  have h45 : Safe w (landedThorns (landedReflectApply w pnum dam) pnum) :=
    safe_trans (reflectApply_safe w pnum dam hd)
      (thorns_safe (landedReflectApply w pnum dam) pnum)
  rw [lifesteal_skip _ dam (hls_transport h45.1 hls)]
  exact safe_trans h45 (finish_safe _ pnum dam)

set_option maxHeartbeats 2000000 in
/-- The full monster-vs-player attack keeps the monster's hit points at or
below its maximum, for every monster outside the multiplayer Skeleton-King
life-steal case. -/
theorem monsterAttackPlayer_safe (w : World) (pnum hit minDam maxDam : Int)
    (hls : w.monster.typ ≠ mtSKing ∨ w.multiplayer = false ∨
      w.monster.noLifesteal = true) :
    Safe w (monsterAttackPlayer w pnum hit minDam maxDam) := by
  simp only [monsterAttackPlayer]
  split_ifs
  all_goals
    first
    | exact safe_addEvent _ _ (safe_rfl _)
    | exact safe_rfl _
    | exact safe_setRng _ _ (safe_rfl _)
    | exact safe_trans (safe_setRng _ _ (safe_rfl _)) (blocked_safe _ pnum minDam maxDam)
    | (refine safe_trans ?_ (landed_safe _ pnum _ (dam_floor_nonneg _)
          (hls_transport ?_ hls))
       · refine safe_setRng _ _ ?_
         exact safe_trans (safe_setRng _ _ (safe_rfl _)) (drain_safe _)
       · refine kv_setRng _ _ ?_
         exact keepsVitals_trans (kv_setRng _ _ (kv_rfl _)) (drain_safe _).1)
    | (refine safe_trans ?_ (landed_safe _ pnum _ (dam_floor_nonneg _)
          (hls_transport ?_ hls))
       · exact safe_setRng _ _ (safe_setRng _ _ (safe_rfl _))
       · exact kv_setRng _ _ (kv_setRng _ _ (kv_rfl _)))

/-- A multiplayer world whose monster is the Skeleton King at full health,
with the attack rolls set up to land. -/
def c1World : World :=
  { baseWorld with
    multiplayer := true
    monster := { baseMonster with typ := mtSKing }
    rng := [0, 0] }

/-- C1, counterexample.  A landed multiplayer Skeleton-King attack adds the
dealt damage to the monster's hit points with no clamp: starting from
`hitPoints = maxHitPoints`, the life-steal leaves `hitPoints` strictly
above `maxHitPoints`. -/
theorem c1_lifesteal_counterexample :
    c1World.monster.hitPoints ≤ c1World.monster.maxHitPoints ∧
    (monsterAttackPlayer c1World 1 100 1 1).monster.hitPoints >
      (monsterAttackPlayer c1World 1 100 1 1).monster.maxHitPoints := by
  decide

/-- C1 (amended): starting from `hitPoints <= maxHitPoints`, the per-tick
regeneration, the Heal-mode update, and the whole monster-vs-player attack
resolution (all its damage, reflect and thorns paths) keep
`hitPoints <= maxHitPoints` — for any monster with a nonnegative maximum
and outside the multiplayer Skeleton-King life-steal case, which is the
single unclamped path. -/
theorem c1_hp_clamp_amended :
    (∀ m : HealMonster, m.hitPoints ≤ m.maxHitPoints →
      (processMonsterRegen m).hitPoints ≤ (processMonsterRegen m).maxHitPoints) ∧
    (∀ m : HealMonster, m.hitPoints ≤ m.maxHitPoints →
      (monsterHeal m).hitPoints ≤ (monsterHeal m).maxHitPoints) ∧
    (∀ (w : World) (pnum hit minDam maxDam : Int),
      w.monster.hitPoints ≤ w.monster.maxHitPoints →
      0 ≤ w.monster.maxHitPoints →
      (w.monster.typ ≠ mtSKing ∨ w.multiplayer = false ∨
        w.monster.noLifesteal = true) →
      (monsterAttackPlayer w pnum hit minDam maxDam).monster.hitPoints ≤
        (monsterAttackPlayer w pnum hit minDam maxDam).monster.maxHitPoints) := by
  refine ⟨?_, ?_, ?_⟩
  · intro m hm
    simp only [processMonsterRegen]
    split_ifs <;> first | exact min_le_right _ _ | exact hm
  · intro m hm
    simp only [monsterHeal]
    split_ifs with h1 h2 h3
    · exact hm
    · have h3x : m.var1 + m.hitPoints < m.maxHitPoints := h3
      show m.var1 + m.hitPoints ≤ m.maxHitPoints
      omega
    · exact le_refl _
    · exact hm
  · intro w pnum hit minDam maxDam hinv hmax hls
    exact hp_le_max_of_safe (monsterAttackPlayer_safe w pnum hit minDam maxDam hls)
      hinv hmax

/-- A plain monster regenerating one whole point per tick near full health. -/
def c1HealMon : HealMonster :=
  { hitPoints := 600, maxHitPoints := 640, var1 := 64, level := 2,
    noHeal := false, allowSpecial := false, lockAnim := true, mode := .Heal,
    currentFrame := 0 }

/-- C1 witness: the amended clamp at a concrete regenerating monster, a
concrete healing monster, and a concrete landed attack on `baseWorld`. -/
theorem c1_hp_clamp_amended_witness :
    (processMonsterRegen c1HealMon).hitPoints ≤
      (processMonsterRegen c1HealMon).maxHitPoints ∧
    (monsterHeal c1HealMon).hitPoints ≤ (monsterHeal c1HealMon).maxHitPoints ∧
    (monsterAttackPlayer { baseWorld with rng := [0, 0] } 1 100 1 1).monster.hitPoints ≤
      (monsterAttackPlayer { baseWorld with rng := [0, 0] } 1 100 1 1).monster.maxHitPoints :=
  ⟨c1_hp_clamp_amended.1 c1HealMon (by decide),
   c1_hp_clamp_amended.2.1 c1HealMon (by decide),
   c1_hp_clamp_amended.2.2 { baseWorld with rng := [0, 0] } 1 100 1 1 (by decide)
     (by decide) (Or.inl (by decide))⟩

/-! ## Early-reject frame property of `MonsterAttackPlayer` (claim C10) -/

/-- C10: if the target player is already dead (hit points at or below
zero), invincible, or etherealized, or the monster stands at walking
distance at least 2 from the player, then `MonsterAttackPlayer` on a
monster not flagged to target monsters returns with the state unchanged:
no monster, player or occupancy effect, no event, and no random draw
consumed. -/
theorem c10_early_reject_frame (w : World) (pnum hit minDam maxDam : Int)
    (htm : w.monster.targetsMonster = false)
    (h : w.player.hitPoints ≤ 0 ∨ w.player.invincible = true ∨
      w.player.etherealize = true ∨
      2 ≤ walkingDistance w.monster.tile w.player.tile) :
    monsterAttackPlayer w pnum hit minDam maxDam = w := by
  rcases h with hx | hx | hx | hx
  · have h1 : shr6 w.player.hitPoints ≤ 0 := by
      unfold shr6
      rw [Int.fdiv_eq_ediv _ (by norm_num)]
      omega
    simp [monsterAttackPlayer, htm, h1]
  · simp [monsterAttackPlayer, htm, hx]
  · simp [monsterAttackPlayer, htm, hx]
  · simp [monsterAttackPlayer, htm, hx]

/-- C10 witness: the frame property at a concrete etherealized player on
`baseWorld`. -/
theorem c10_early_reject_frame_witness :
    monsterAttackPlayer
      { baseWorld with player := { basePlayer with etherealize := true } } 1 100 1 2 =
      { baseWorld with player := { basePlayer with etherealize := true } } :=
  c10_early_reject_frame _ 1 100 1 2 rfl (Or.inr (Or.inr (Or.inl rfl)))

/-! ## Hit-threshold resolution of `MonsterAttackPlayer` (claim C4) -/

/-- The effective to-hit threshold computed by `MonsterAttackPlayer` (the
code's `hit` after the armor adjustment and the per-area floor), named for
reuse in the combat-core equation. -/
def attackHit2 (w : World) (hit : Int) : Int :=
  let ac0 := w.player.armor
  let ac1 := if w.player.acAgainstDemons ∧ w.monster.classDemon then ac0 + 40 else ac0
  let ac := if w.player.acAgainstUndead ∧ w.monster.classUndead then ac1 + 20 else ac1
  max (hit + 2 * (w.monster.level - w.player.level) + 30 - ac)
    (minHitForLevel w.currlevel)

/-- The random stream left after the to-hit roll and the optional block
roll of `MonsterAttackPlayer`. -/
def attackRng2 (w : World) : List Int :=
  let rng1 := (generateRnd 100 w.rng).2
  if (w.player.pmode = .Stand ∨ w.player.pmode = .Attack) ∧ w.player.blockFlag then
    (generateRnd 100 rng1).2
  else rng1

/-- The block roll of `MonsterAttackPlayer` (100 when the player cannot
block). -/
def attackBlkper (w : World) : Int :=
  let rng1 := (generateRnd 100 w.rng).2
  if (w.player.pmode = .Stand ∨ w.player.pmode = .Attack) ∧ w.player.blockFlag then
    (generateRnd 100 rng1).1
  else 100

/-- The clamped block chance of `MonsterAttackPlayer`. -/
def attackBlk (w : World) : Int :=
  min (max (w.player.blockChance - w.monster.level * 2) 0) 100

/-- The landed-hit tail of `MonsterAttackPlayer` from after the block
decision: optional Yellow-Zombie drain, damage roll, then the landed-hit
steps. -/
def attackMain (w : World) (pnum minDam maxDam : Int) : World :=
  let w1 : World := { w with rng := attackRng2 w }
  let w2 : World :=
    if w.monster.typ = mtYZombie ∧ pnum = w.myPlayerId then
      monsterAttackPlayerDrain w1
    else w1
  let dR := generateRnd ((maxDam - minDam) * 64 + 1) w2.rng
  let dam := max (minDam * 64 + dR.1 + w2.player.getHit * 64) 64
  monsterAttackPlayerLanded { w2 with rng := dR.2 } pnum dam

/-- The hit threshold as the specification words it: base plus twice the
level difference plus 30 minus the defender's armor, floored at 15, except
20 on dungeon level 14, 25 on level 15 and 30 on level 16. -/
def specHitThreshold (base mlvl plvl armor currlevel : Int) : Int :=
  max (base + 2 * (mlvl - plvl) + 30 - armor)
    (if currlevel = 14 then 20
     else if currlevel = 15 then 25
     else if currlevel = 16 then 30
     else 15)

/-- The code's adjusted threshold agrees with the specification's formula
once the armor bonuses are folded into the defender's armor value. -/
theorem attackHit2_spec (w : World) (hit : Int) :
    attackHit2 w hit =
      specHitThreshold hit w.monster.level w.player.level
        (w.player.armor +
          (if w.player.acAgainstDemons ∧ w.monster.classDemon then 40 else 0) +
          (if w.player.acAgainstUndead ∧ w.monster.classUndead then 20 else 0))
        w.currlevel := by
  simp only [attackHit2, specHitThreshold, minHitForLevel]
  split_ifs <;> omega

set_option maxHeartbeats 1000000 in
/-- The combat core of `MonsterAttackPlayer`: once the early rejections are
ruled out, the result is the miss, block or landed-hit tail selected by the
to-hit and block rolls. -/
theorem monsterAttackPlayer_core (w : World) (pnum hit minDam maxDam : Int)
    (htm : w.monster.targetsMonster = false)
    (hhp : ¬ shr6 w.player.hitPoints ≤ 0)
    (hinv : w.player.invincible = false)
    (heth : w.player.etherealize = false)
    (hdist : ¬ walkingDistance w.monster.tile w.player.tile ≥ 2) :
    monsterAttackPlayer w pnum hit minDam maxDam =
      if (generateRnd 100 w.rng).1 ≥ attackHit2 w hit then
        { w with rng := attackRng2 w }
      else if attackBlkper w < attackBlk w then
        monsterAttackPlayerBlocked { w with rng := attackRng2 w } pnum minDam maxDam
      else attackMain w pnum minDam maxDam := by
  simp only [monsterAttackPlayer]
  rw [if_neg (by simp [htm]), if_neg (by simp [hhp, hinv, heth]), if_neg hdist]
  simp only [attackHit2, attackRng2, attackBlkper, attackBlk, attackMain]
  split_ifs <;> rfl

/-- Event-log and player preservation through a state-to-state step. -/
def EvPl (w w2 : World) : Prop :=
  w.events.length ≤ w2.events.length ∧ w2.player = w.player

theorem evpl_comp {w w2 w3 : World} (h1 : EvPl w w2) (h2 : EvPl w2 w3) :
    EvPl w w3 :=
  ⟨le_trans h1.1 h2.1, h2.2.trans h1.2⟩

theorem addEvent_evpl (w : World) (e : Event) : EvPl w (addEvent w e) :=
  ⟨Nat.le_succ _, rfl⟩

set_option maxHeartbeats 1000000 in
theorem monsterDeath_evpl (w : World) (pnum : Int) (md : Direction) (sm : Bool) :
    EvPl w (monsterDeath w pnum md sm) := by
  simp only [monsterDeath, addEvent, EvPl]
  split_ifs <;> refine ⟨?_, rfl⟩ <;> simp <;> omega

theorem teleport_evpl (w : World) : EvPl w (teleport w) := by
  simp only [teleport]
  split_ifs
  · exact ⟨le_refl _, rfl⟩
  · rcases hgt : getTeleportTile w with ⟨opt, rng2⟩
    cases opt <;> exact ⟨le_refl _, rfl⟩

theorem startMonsterGotHit_evpl (w : World) : EvPl w (startMonsterGotHit w) := by
  simp only [startMonsterGotHit]
  exact ⟨le_refl _, rfl⟩

theorem mStartHitDam_evpl (w : World) (dam : Int) : EvPl w (mStartHitDam w dam) := by
  simp only [mStartHitDam]
  split_ifs
  · exact evpl_comp (evpl_comp (addEvent_evpl w _) (teleport_evpl _))
      (startMonsterGotHit_evpl _)
  · exact evpl_comp (addEvent_evpl w _) (teleport_evpl _)
  · exact evpl_comp (addEvent_evpl w _) (startMonsterGotHit_evpl _)
  · exact addEvent_evpl w _
  · exact evpl_comp (addEvent_evpl w _) (startMonsterGotHit_evpl _)
  · exact addEvent_evpl w _
  · exact addEvent_evpl w _

theorem hitDam_evpl_after {w w2 : World} (dam : Int) (h : EvPl w w2) :
    EvPl w (mStartHitDam w2 dam) :=
  evpl_comp h (mStartHitDam_evpl w2 dam)

theorem mStartHitPlr_evpl (w : World) (pnum dam : Int) :
    EvPl w (mStartHitPlr w pnum dam) := by
  simp only [mStartHitPlr]
  split_ifs <;> first
    | exact hitDam_evpl_after dam
        (evpl_comp (addEvent_evpl _ _) (addEvent_evpl _ _))
    | exact hitDam_evpl_after dam ⟨le_refl _, rfl⟩

theorem death_evpl_after {w w2 : World} (pnum : Int) (md : Direction) (sm : Bool)
    (h : EvPl w w2) : EvPl w (monsterDeath w2 pnum md sm) :=
  evpl_comp h (monsterDeath_evpl w2 pnum md sm)

theorem mStartKill_evpl (w : World) (pnum : Int) : EvPl w (mStartKill w pnum) := by
  simp only [mStartKill, startMonsterDeath]
  split_ifs <;> first
    | exact death_evpl_after pnum _ true
        (evpl_comp (addEvent_evpl _ _) (addEvent_evpl _ _))
    | exact death_evpl_after pnum _ true ⟨le_refl _, rfl⟩

theorem kill_evlen_after {w w2 : World} (pnum : Int)
    (h : w.events.length ≤ w2.events.length) :
    w.events.length ≤ (mStartKill w2 pnum).events.length :=
  le_trans h (mStartKill_evpl w2 pnum).1

theorem hitPlr_evlen_after {w w2 : World} (pnum dam : Int)
    (h : w.events.length ≤ w2.events.length) :
    w.events.length ≤ (mStartHitPlr w2 pnum dam).events.length :=
  le_trans h (mStartHitPlr_evpl w2 pnum dam).1

theorem checkReflect_evlen (w : World) (pnum dam : Int) :
    w.events.length ≤ (checkReflect w pnum dam).events.length := by
  simp only [checkReflect, generateRnd_ten]
  split_ifs
  · exact kill_evlen_after pnum (Nat.le_succ _)
  · exact hitPlr_evlen_after pnum _ (Nat.le_succ _)
  · exact kill_evlen_after pnum (le_refl _)
  · exact hitPlr_evlen_after pnum _ (le_refl _)

theorem landedReflectApply_evgrow (w3 : World) (pnum dam : Int)
    (hmy : pnum = w3.myPlayerId) :
    w3.events.length < (landedReflectApply w3 pnum dam).events.length := by
  simp only [landedReflectApply]
  rw [if_pos hmy]
  split_ifs
  · exact lt_of_le_of_lt (checkReflect_evlen w3 pnum dam) (Nat.lt_succ_self _)
  · exact Nat.lt_succ_self _

theorem landedReflectApply_skip (w3 : World) (pnum dam : Int)
    (h : ¬ pnum = w3.myPlayerId) : landedReflectApply w3 pnum dam = w3 := by
  simp only [landedReflectApply]
  rw [if_neg h]

theorem kill_evpl_after {w w2 : World} (pnum : Int) (h : EvPl w w2) :
    EvPl w (mStartKill w2 pnum) :=
  evpl_comp h (mStartKill_evpl w2 pnum)

theorem hitPlr_evpl_after {w w2 : World} (pnum dam : Int) (h : EvPl w w2) :
    EvPl w (mStartHitPlr w2 pnum dam) :=
  evpl_comp h (mStartHitPlr_evpl w2 pnum dam)

theorem landedThorns_evpl (w4 : World) (pnum : Int) : EvPl w4 (landedThorns w4 pnum) := by
  simp only [landedThorns]
  split_ifs
  · exact kill_evpl_after pnum ⟨le_refl _, rfl⟩
  · exact hitPlr_evpl_after pnum _ ⟨le_refl _, rfl⟩
  · exact ⟨le_refl _, rfl⟩

theorem landedLifesteal_evpl (w5 : World) (dam : Int) :
    (landedLifesteal w5 dam).events = w5.events ∧
    (landedLifesteal w5 dam).player = w5.player := by
  simp only [landedLifesteal]
  split_ifs <;> exact ⟨rfl, rfl⟩

set_option maxHeartbeats 1000000 in
theorem landedFinish_evmono (w6 : World) (pnum dam : Int) :
    w6.events.length ≤ (landedFinish w6 pnum dam).events.length := by
  simp only [landedFinish, mStartStandC, addEvent, gridSet]
  split_ifs <;> simp <;> omega

set_option maxHeartbeats 1000000 in
theorem landedFinish_evgrow (w6 : World) (pnum dam : Int)
    (h : ¬ shr6 w6.player.hitPoints ≤ 0) :
    w6.events.length < (landedFinish w6 pnum dam).events.length := by
  simp only [landedFinish, addEvent, gridSet]
  rw [if_neg h]
  split_ifs <;> simp <;> omega

theorem monsterAttackPlayerLanded_evgrow (w3 : World) (pnum dam : Int)
    (h : pnum = w3.myPlayerId ∨ ¬ shr6 w3.player.hitPoints ≤ 0) :
    w3.events.length < (monsterAttackPlayerLanded w3 pnum dam).events.length := by
  unfold monsterAttackPlayerLanded
  by_cases hmy : pnum = w3.myPlayerId
  · have h1 := landedReflectApply_evgrow w3 pnum dam hmy
    have h2 := (landedThorns_evpl (landedReflectApply w3 pnum dam) pnum).1
    have h3 := congrArg List.length
      (landedLifesteal_evpl (landedThorns (landedReflectApply w3 pnum dam) pnum) dam).1
    have h4 := landedFinish_evmono
      (landedLifesteal (landedThorns (landedReflectApply w3 pnum dam) pnum) dam) pnum dam
    omega
  · have halive : ¬ shr6 w3.player.hitPoints ≤ 0 := h.resolve_left hmy
    rw [landedReflectApply_skip w3 pnum dam hmy]
    have hp2 := (landedThorns_evpl w3 pnum).2
    have hp3 := (landedLifesteal_evpl (landedThorns w3 pnum) dam).2
    have halive6 :
        ¬ shr6 (landedLifesteal (landedThorns w3 pnum) dam).player.hitPoints ≤ 0 := by
      rw [hp3, hp2]
      exact halive
    have h2 := (landedThorns_evpl w3 pnum).1
    have h3 := congrArg List.length (landedLifesteal_evpl (landedThorns w3 pnum) dam).1
    have h4 := landedFinish_evgrow (landedLifesteal (landedThorns w3 pnum) dam) pnum dam
      halive6
    omega

theorem monsterAttackPlayerBlocked_evgrow (w1 : World) (pnum minDam maxDam : Int) :
    w1.events.length < (monsterAttackPlayerBlocked w1 pnum minDam maxDam).events.length := by
  simp only [monsterAttackPlayerBlocked]
  split_ifs
  · refine lt_of_lt_of_le ?_ (checkReflect_evlen _ pnum _)
    exact Nat.lt_succ_self _
  · exact Nat.lt_succ_self _

theorem monsterAttackPlayerDrain_ev (w1 : World) :
    (monsterAttackPlayerDrain w1).events = w1.events ∧
    (monsterAttackPlayerDrain w1).myPlayerId = w1.myPlayerId := by
  simp only [monsterAttackPlayerDrain]
  split_ifs <;> exact ⟨rfl, rfl⟩

theorem landed_evgrow_from {w0 w2 : World} (pnum dam : Int)
    (hev : w2.events = w0.events)
    (hmy : w2.myPlayerId = w0.myPlayerId)
    (hpl : pnum = w0.myPlayerId ∨ ¬ shr6 w2.player.hitPoints ≤ 0) :
    w0.events.length < (monsterAttackPlayerLanded w2 pnum dam).events.length := by
  have hg := monsterAttackPlayerLanded_evgrow w2 pnum dam (by
    rcases hpl with hx | hx
    · exact Or.inl (by rw [hmy]; exact hx)
    · exact Or.inr hx)
  rw [hev] at hg
  exact hg

theorem attackMain_evgrow (w : World) (pnum minDam maxDam : Int)
    (hhp : ¬ shr6 w.player.hitPoints ≤ 0) :
    w.events.length < (attackMain w pnum minDam maxDam).events.length := by
  simp only [attackMain]
  split_ifs with hz
  · exact landed_evgrow_from pnum _
      (monsterAttackPlayerDrain_ev { w with rng := attackRng2 w }).1
      (monsterAttackPlayerDrain_ev { w with rng := attackRng2 w }).2
      (Or.inl hz.2)
  · exact landed_evgrow_from pnum _ rfl rfl (Or.inr hhp)

/-- C4: whenever the attack is not early-rejected, the threshold compared
against the uniform roll on [0, 100) is the base hit value plus twice the
monster-minus-player level difference plus 30 minus the defender's armor
(with the anti-demon and anti-undead bonuses folded in), floored at 15,
except 20 on dungeon level 14, 25 on level 15 and 30 on level 16; and the
attack misses — leaves the whole state unchanged except for the consumed
random draws — exactly when the roll is at least this threshold. -/
theorem c4_hit_threshold (w : World) (pnum hit minDam maxDam : Int)
    (htm : w.monster.targetsMonster = false)
    (hhp : ¬ shr6 w.player.hitPoints ≤ 0)
    (hinv : w.player.invincible = false)
    (heth : w.player.etherealize = false)
    (hdist : ¬ walkingDistance w.monster.tile w.player.tile ≥ 2) :
    ((∃ r : List Int, monsterAttackPlayer w pnum hit minDam maxDam = { w with rng := r }) ↔
      (generateRnd 100 w.rng).1 ≥
        specHitThreshold hit w.monster.level w.player.level
          (w.player.armor +
            (if w.player.acAgainstDemons ∧ w.monster.classDemon then 40 else 0) +
            (if w.player.acAgainstUndead ∧ w.monster.classUndead then 20 else 0))
          w.currlevel) := by
  have hcore := monsterAttackPlayer_core w pnum hit minDam maxDam htm hhp hinv heth hdist
  rw [← attackHit2_spec w hit]
  constructor
  · rintro ⟨r, hr⟩
    by_contra hlt
    rw [hcore, if_neg hlt] at hr
    have hgrow : w.events.length <
        (if attackBlkper w < attackBlk w then
          monsterAttackPlayerBlocked { w with rng := attackRng2 w } pnum minDam maxDam
        else attackMain w pnum minDam maxDam).events.length := by
      split_ifs
      · exact monsterAttackPlayerBlocked_evgrow { w with rng := attackRng2 w }
          pnum minDam maxDam
      · exact attackMain_evgrow w pnum minDam maxDam hhp
    rw [hr] at hgrow
    exact lt_irrefl _ hgrow
  · intro hge
    exact ⟨attackRng2 w, by rw [hcore, if_pos hge]⟩

/-- C4 witness: on `baseWorld` with an adjacent live player, a to-hit roll
of 0 against a positive threshold lands (no pure-rng result exists), in
agreement with the roll being below the specification threshold. -/
theorem c4_hit_threshold_witness :
    ¬ (∃ r : List Int, monsterAttackPlayer { baseWorld with rng := [0, 0] } 1 100 1 1 =
        { { baseWorld with rng := [0, 0] } with rng := r }) ∧
    ¬ ((generateRnd 100 [0, 0]).1 ≥
        specHitThreshold 100 (2 : Int) 1 0 1) := by
  constructor
  · intro hex
    have h := (c4_hit_threshold { baseWorld with rng := [0, 0] } 1 100 1 1
      (by decide) (by decide) (by decide) (by decide) (by decide)).1 hex
    revert h
    decide
  · decide

/-! ## Population-budget accounting of `PlaceGroup` (claim C9) -/

theorem withRng_active (s : PGState) (r : List Int) : (withRng s r).active = s.active :=
  rfl

theorem withRng_total (s : PGState) (r : List Int) : (withRng s r).total = s.total :=
  rfl

theorem placeMonster_at (cfg : PGConfig) (s : PGState) (i : Int) (position : Point)
    (placedSoFar : Int) :
    (placeMonster cfg s i position placedSoFar).active = s.active ∧
    (placeMonster cfg s i position placedSoFar).total = s.total := by
  simp only [placeMonster]
  split_ifs <;> exact ⟨rfl, rfl⟩

theorem pgPlaceStep_active (cfg : PGConfig) (s : PGState) (position : Point)
    (placed : Int) :
    (pgPlaceStep cfg s position placed).active = s.active + 1 := by
  have h := placeMonster_at cfg s s.active position placed
  simp only [pgPlaceStep]
  split_ifs
  · rw [h.1]
  · rw [h.1]

theorem pgPlaceStep_total (cfg : PGConfig) (s : PGState) (position : Point)
    (placed : Int) :
    (pgPlaceStep cfg s position placed).total = s.total := by
  have h := placeMonster_at cfg s s.active position placed
  simp only [pgPlaceStep]
  split_ifs
  · rw [h.2]
  · rw [h.2]

theorem pgUndo_at : ∀ (n : Nat) (s : PGState),
    (pgUndo n s).active = s.active - n ∧ (pgUndo n s).total = s.total := by
  intro n
  induction n with
  | zero =>
    intro s
    constructor
    · show s.active = s.active - ((0 : Nat) : Int)
      omega
    · rfl
  | succ n ih =>
    intro s
    simp only [pgUndo]
    obtain ⟨h1, h2⟩ := ih { s with
      active := s.active - 1
      grid := gridSet s.grid (s.tiles (s.active - 1)) 0 }
    constructor
    · rw [h1]
      show s.active - 1 - (n : Int) = s.active - ((n + 1 : Nat) : Int)
      push_cast
      ring
    · rw [h2]

set_option maxHeartbeats 1000000 in
/-- The inner-loop accounting: the returned placed count only grows, the
growth is bounded by the remaining request, `ActiveMonsterCount` rises by
exactly the growth, and the budget field is untouched. -/
theorem pgInner_spec (cfg : PGConfig) (c : Point) (num : Int) :
    ∀ (fuel : Nat) (j try2 xp yp placed : Int) (s : PGState),
      (pgInner cfg c num fuel j try2 xp yp placed s).1.active =
          s.active + ((pgInner cfg c num fuel j try2 xp yp placed s).2.1 - placed) ∧
      (pgInner cfg c num fuel j try2 xp yp placed s).1.total = s.total ∧
      placed ≤ (pgInner cfg c num fuel j try2 xp yp placed s).2.1 ∧
      (pgInner cfg c num fuel j try2 xp yp placed s).2.1 - placed ≤
        max 0 (num - j) := by
  intro fuel
  induction fuel with
  | zero =>
    intro j try2 xp yp placed s
    simp only [pgInner]
    try dsimp only
    exact ⟨by omega, trivial, le_refl _, by omega⟩
  | succ fuel ih =>
    intro j try2 xp yp placed s
    simp only [pgInner]
    split_ifs with hcond hfail
    · have h := ih j (try2 + 1) (pgAdvance xp yp s.rng).1 (pgAdvance xp yp s.rng).2.1
        placed (withRng s (pgAdvance xp yp s.rng).2.2)
      rw [withRng_active, withRng_total] at h
      dsimp only
      exact ⟨h.1, h.2.1, h.2.2.1, h.2.2.2⟩
    · have h := ih (j + 1) try2
        (pgAdvance xp yp (pgPlaceStep cfg s ⟨xp, yp⟩ placed).rng).1
        (pgAdvance xp yp (pgPlaceStep cfg s ⟨xp, yp⟩ placed).rng).2.1
        (placed + 1)
        (withRng (pgPlaceStep cfg s ⟨xp, yp⟩ placed)
          (pgAdvance xp yp (pgPlaceStep cfg s ⟨xp, yp⟩ placed).rng).2.2)
      rw [withRng_active, withRng_total, pgPlaceStep_active, pgPlaceStep_total] at h
      obtain ⟨h1, h2, h3, h4⟩ := h
      have hj : j < num := hcond.1
      exact ⟨by omega, h2, by omega, by omega⟩
    · dsimp only
      exact ⟨by omega, rfl, le_refl _, by omega⟩

set_option maxHeartbeats 1000000 in
/-- The inner loop with no failed candidate places exactly the remaining
request, provided the fuel covers it (as the callers arrange). -/
theorem pgInner_exact (cfg : PGConfig) (c : Point) (num : Int) :
    ∀ (fuel : Nat) (j try2 xp yp placed : Int) (s : PGState),
      (pgInner cfg c num fuel j try2 xp yp placed s).2.2 = 0 →
      j ≤ num → try2 < 100 → (num - j).toNat ≤ fuel →
      (pgInner cfg c num fuel j try2 xp yp placed s).2.1 = placed + (num - j) := by
  intro fuel
  induction fuel with
  | zero =>
    intro j try2 xp yp placed s hg hj ht hf
    simp only [pgInner]
    try dsimp only
    omega
  | succ fuel ih =>
    intro j try2 xp yp placed s hg hj ht hf
    simp only [pgInner] at hg ⊢
    split_ifs at hg ⊢ with hcond hfail
    · dsimp only at hg
      omega
    · have h := ih (j + 1) try2
        (pgAdvance xp yp (pgPlaceStep cfg s ⟨xp, yp⟩ placed).rng).1
        (pgAdvance xp yp (pgPlaceStep cfg s ⟨xp, yp⟩ placed).rng).2.1
        (placed + 1)
        (withRng (pgPlaceStep cfg s ⟨xp, yp⟩ placed)
          (pgAdvance xp yp (pgPlaceStep cfg s ⟨xp, yp⟩ placed).rng).2.2)
        hg (by omega) ht (by omega)
      omega
    · dsimp only at hg ⊢
      omega

set_option maxHeartbeats 2000000 in
/-- The retry-round accounting: across the rounds `ActiveMonsterCount`
tracks the returned placed count over the activity level at entry, the
budget field is untouched, and the placed count never exceeds the clamped
request. -/
theorem pgOuter_spec (cfg : PGConfig) (A0 T : Int) :
    ∀ (t : Nat) (num placed : Int) (s : PGState),
      s.active = A0 + placed → s.total = T → 0 ≤ placed →
      ((pgOuter cfg t num placed s).1.active =
          A0 + (pgOuter cfg t num placed s).2.1 ∧
       (pgOuter cfg t num placed s).1.total = T ∧
       0 ≤ (pgOuter cfg t num placed s).2.1 ∧
       (pgOuter cfg t num placed s).2.1 ≤
         max placed (max 0 (if num + A0 > T then T - A0 else num))) := by
  intro t
  induction t with
  | zero =>
    intro num placed s ha ht hp
    simp only [pgOuter]
    try dsimp only
    exact ⟨ha, ht, hp, le_max_left _ _⟩
  | succ t ih =>
    intro num placed s ha ht hp
    simp only [pgOuter]
    have hu := pgUndo_at placed.toNat s
    have ha1 : (pgUndo placed.toNat s).active = A0 := by omega
    have ht1 : (pgUndo placed.toNat s).total = T := by omega
    set s1 := pgUndo placed.toNat s with hs1
    set cR := pgCenter cfg s1.grid s1.rng with hcR
    set num1 := (if num + s1.active > s1.total then s1.total - s1.active else num)
      with hnum1
    have hnum1' : num1 = if num + A0 > T then T - A0 else num := by
      rw [hnum1, ha1, ht1]
    set iR := pgInner cfg cR.1 num1 (num1.toNat + 100) 0 0 cR.1.x cR.1.y 0
      (withRng s1 cR.2.1) with hiR
    have hin := pgInner_spec cfg cR.1 num1 (num1.toNat + 100) 0 0 cR.1.x cR.1.y 0
      (withRng s1 cR.2.1)
    rw [← hiR, withRng_active, withRng_total] at hin
    obtain ⟨hin1, hin2, hin3, hin4⟩ := hin
    rw [← hnum1']
    split_ifs with hdone
    · dsimp only
      exact ⟨by omega, by omega, by omega, by omega⟩
    · obtain ⟨hr1, hr2, hr3, hr4⟩ := ih num1 iR.2.1 iR.1
        (by omega) (by omega) (by omega)
      have hidem : (if num1 + A0 > T then T - A0 else num1) = num1 := by
        rw [hnum1']
        split_ifs <;> omega
      rw [hidem] at hr4
      dsimp only
      exact ⟨by omega, by omega, by omega, by omega⟩

theorem placeGroupAux_proj (cfg : PGConfig) (num : Int) (s : PGState) :
    (placeGroupAux cfg num s).1.active = (pgOuter cfg 10 num 0 s).1.active ∧
    (placeGroupAux cfg num s).1.total = (pgOuter cfg 10 num 0 s).1.total ∧
    (placeGroupAux cfg num s).2.1 = (pgOuter cfg 10 num 0 s).2.1 ∧
    (placeGroupAux cfg num s).2.2 = (pgOuter cfg 10 num 0 s).2.2 := by
  simp only [placeGroupAux]
  split_ifs <;> refine ⟨?_, ?_, ?_, ?_⟩ <;> trivial

set_option maxHeartbeats 2000000 in
/-- A round with no placement failure places exactly the clamped count and
stops. -/
theorem pgOuter_succ_exact (cfg : PGConfig) (num : Int) (s : PGState) (t : Nat)
    (hover : num + s.active > s.total) (hbud : s.active ≤ s.total)
    (hg : (pgOuter cfg (t + 1) num 0 s).2.2 = 0) :
    (pgOuter cfg (t + 1) num 0 s).2.1 = s.total - s.active := by
  simp only [pgOuter] at hg ⊢
  have hu : pgUndo (0 : Int).toNat s = s := rfl
  rw [hu] at hg ⊢
  set cR := pgCenter cfg s.grid s.rng with hcR
  set num1 := (if num + s.active > s.total then s.total - s.active else num)
    with hnum1
  set iR := pgInner cfg cR.1 num1 (num1.toNat + 100) 0 0 cR.1.x cR.1.y 0
    (withRng s cR.2.1) with hiR
  have hnum1' : num1 = s.total - s.active := by
    rw [hnum1, if_pos hover]
  have hex : iR.2.2 = 0 → iR.2.1 = num1 := by
    intro hz
    have hx := pgInner_exact cfg cR.1 num1 (num1.toNat + 100) 0 0 cR.1.x cR.1.y 0
      (withRng s cR.2.1) (by rw [← hiR]; exact hz) (by omega) (by omega) (by omega)
    rw [← hiR] at hx
    omega
  by_cases hdone : iR.2.1 ≥ num1
  · rw [if_pos hdone] at hg ⊢
    dsimp only at hg ⊢
    have hz : iR.2.2 = 0 := by omega
    have hq := hex hz
    omega
  · exfalso
    rw [if_neg hdone] at hg
    dsimp only at hg
    have hz : iR.2.2 = 0 := by omega
    have hq := hex hz
    omega

/-- The ten-round instance used by `PlaceGroup`. -/
theorem pgOuter_exact (cfg : PGConfig) (num : Int) (s : PGState)
    (hover : num + s.active > s.total) (hbud : s.active ≤ s.total)
    (hg : (pgOuter cfg 10 num 0 s).2.2 = 0) :
    (pgOuter cfg 10 num 0 s).2.1 = s.total - s.active :=
  pgOuter_succ_exact cfg num s 9 hover hbud hg

/-- C9: when `PlaceGroup` is requested for a count with
`num + ActiveMonsterCount > totalmonsters`, the increase of
`ActiveMonsterCount` equals the returned placed count, is never negative
(the call never fails, it just places what it can), never exceeds the
remaining budget `totalmonsters - ActiveMonsterCount`, and — whenever no
candidate was rejected in the bounded retry loops (ghost failure count
zero) and the budget was not already exhausted — equals that remaining
budget exactly. -/
theorem c9_placeGroup_budget (cfg : PGConfig) (num : Int) (s : PGState)
    (hover : num + s.active > s.total) :
    ((placeGroup cfg num s).active - s.active = (placeGroupAux cfg num s).2.1 ∧
     0 ≤ (placeGroup cfg num s).active - s.active ∧
     (placeGroup cfg num s).active - s.active ≤ max 0 (s.total - s.active)) ∧
    ((placeGroupAux cfg num s).2.2 = 0 → s.active ≤ s.total →
      (placeGroup cfg num s).active - s.active = s.total - s.active) := by
  have hproj := placeGroupAux_proj cfg num s
  have hspec := pgOuter_spec cfg s.active s.total 10 num 0 s (by omega) rfl
    (le_refl 0)
  rw [if_pos hover] at hspec
  constructor
  · refine ⟨?_, ?_, ?_⟩
    · simp only [placeGroup]
      omega
    · simp only [placeGroup]
      omega
    · simp only [placeGroup]
      omega
  · intro hg hbud
    have hx := pgOuter_exact cfg num s hover hbud (by omega)
    simp only [placeGroup]
    omega

/-- A trivially placeable nine-candidate world: every tile statically free,
an empty occupancy grid, five active monsters against a budget of six. -/
def c9Cfg : PGConfig :=
  { staticOk := fun _ => true, transVal := fun _ => 0, pack := .None,
    leaderTile := ⟨20, 20⟩, isNakrul := false, nakrulPreexists := false,
    aiIsGarg := false, ticksPerFrame := 1, numberOfFrames := 1,
    minHPData := 1, maxHPData := 1 }

/-- The matching placement state for the C9 witness. -/
def c9S : PGState :=
  { active := 5, total := 6, grid := fun _ => 0, tiles := fun _ => ⟨0, 0⟩,
    leaderPackSize := 0, rng := [0, 0, 0, 0, 0, 0, 0, 0, 0, 0, 0, 0] }

/-- C9 witness: the budget accounting at a concrete over-budget request. -/
theorem c9_placeGroup_budget_witness :
    (3 : Int) + c9S.active > c9S.total ∧
    (((placeGroup c9Cfg 3 c9S).active - c9S.active = (placeGroupAux c9Cfg 3 c9S).2.1 ∧
      0 ≤ (placeGroup c9Cfg 3 c9S).active - c9S.active ∧
      (placeGroup c9Cfg 3 c9S).active - c9S.active ≤ max 0 (c9S.total - c9S.active)) ∧
     ((placeGroupAux c9Cfg 3 c9S).2.2 = 0 → c9S.active ≤ c9S.total →
       (placeGroup c9Cfg 3 c9S).active - c9S.active = c9S.total - c9S.active)) :=
  ⟨by decide, c9_placeGroup_budget c9Cfg 3 c9S (by decide)⟩

end Spec2Proof
